import Mathlib

/-!
Shallow embedding of the oakley-trading core (engine.py, risk.py, db.py,
data_service.py, common/cache.py, reconciliation.py).

Modelling conventions:
- Python floats are modelled as exact rationals (`ℚ`); float rounding noise is
  not modelled, but the decimal round/floor logic of quantization is modelled
  exactly (including round-half-to-even).
- The SQLite store is a `Ledger` value: a trade list, a string config table
  and a recovery queue with an autoincrement counter.
- External effects (Binance calls, the wall clock, environmental DB write
  failures) are explicit inputs: oracles inside `BuyExt` / `CloseExt`.
- A Python function that can raise to its caller returns a result type with an
  explicit error constructor; structured business refusals are a separate
  constructor, mirroring the dict results of the source.
-/

set_option maxHeartbeats 1000000

namespace Oakley

/-- Python str.endswith, over the char list so it computes by reduction. -/
def str_ends_with (s t : String) : Bool := t.data.isSuffixOf s.data

/-- Python s[:-n] (drop the last n characters), over the char list. -/
def str_drop_right (s : String) (n : ℕ) : String := ⟨s.data.take (s.data.length - n)⟩

/-- Python str.upper, over the char list. -/
def str_to_upper (s : String) : String := ⟨s.data.map Char.toUpper⟩

/-- Python round() with no digits argument: round half to even, on a rational. -/
def py_round (x : ℚ) : ℤ :=
  let f := ⌊x⌋
  if x - f < 1/2 then f
  else if (1 : ℚ)/2 < x - f then f + 1
  else if f % 2 = 0 then f else f + 1

/-- Python round(x, p): round to p decimal places (half to even). -/
def round_to (x : ℚ) (p : ℕ) : ℚ := (py_round (x * 10 ^ p) : ℚ) / 10 ^ p

/-- The implied decimal precision of a positive step size, from
data_service.step_size: max(0, int(round(-log10(step)))), computed exactly on
the rational step. The integer k = round(-log10 step) is characterised by
10 ^ (-2k-1) < step ^ 2 < 10 ^ (-2k+1) (the boundaries are irrational, so
never hit); k ≤ 0 iff 10 * num ^ 2 > den ^ 2, and otherwise k is half of
floor(log10 (den ^ 2 / num ^ 2)), rounded up. -/
def implied_precision (step : ℚ) : ℕ :=
  let a := step.num.natAbs
  let b := step.den
  if b ^ 2 < 10 * a ^ 2 then 0
  else (Nat.log 10 (b ^ 2 / a ^ 2) + 1) / 2

/-- data_service.step_size: floor the quantity to the nearest multiple of the
venue step, then round to the step's implied decimal precision. A step ≤ 0
falls back to round(quantity, 6). -/
def step_size (step quantity : ℚ) : ℚ :=
  if step ≤ 0 then round_to quantity 6
  else round_to ((⌊quantity / step⌋ : ℚ) * step) (implied_precision step)

/-- One fill entry of a Binance market-order response. -/
structure Fill where
  commission : ℚ
  commissionAsset : String
deriving DecidableEq

/-- A Binance market-order response, reduced to the fields the engine reads.
orderId is the string form of the venue order id; none models a missing key. -/
structure OrderResp where
  orderId : Option String
  executedQty : ℚ
  cummulativeQuoteQty : ℚ
  fills : List Fill
deriving DecidableEq

/-- The exceptions data_service.execute_order can raise: the RuntimeError for a
non-positive quantized quantity, the ValueError for an invalid side, and any
exception coming out of the venue api call. -/
inductive OrderError where
  | qtyTooSmall (requested formatted : ℚ)
  | invalidSide (side : String)
  | venue (msg : String)
deriving DecidableEq

/-- data_service.execute_order: quantize, raise if the floored quantity is
non-positive, then dispatch on side. The venue response (or the exception the
api call raises) is the `venueResp` oracle. -/
def execute_order (step : ℚ) (venueResp : Except String OrderResp)
    (side : String) (quantity : ℚ) : Except OrderError OrderResp :=
  let formatted := step_size step quantity
  if formatted ≤ 0 then .error (.qtyTooSmall quantity formatted)
  else if side = "BUY" then
    match venueResp with
    | .ok o => .ok o
    | .error m => .error (.venue m)
  else if side = "SELL" then
    match venueResp with
    | .ok o => .ok o
    | .error m => .error (.venue m)
  else .error (.invalidSide side)

/-- The str() of an OrderError as interpolated into a refusal reason. The
Python messages also interpolate the numeric quantities; that numeric
rendering is elided here. -/
def order_error_msg : OrderError → String
  | .qtyTooSmall _ _ => "Quantity too small after step size adjustment"
  | .invalidSide s => "Invalid side: " ++ s ++ ". Must be BUY or SELL."
  | .venue m => m

/-- Whether an execute_order outcome reached the venue order call (the two
raise-before-submit errors do not). -/
def places_order : Except OrderError OrderResp → Bool
  | .error (.qtyTooSmall _ _) => false
  | .error (.invalidSide _) => false
  | _ => true

/-- engine.calculate_order_fee: sum fill commissions in USDT, converting BNB
and other assets at the current price; a missing price skips the fill. -/
def calculate_order_fee (priceOf : String → Option ℚ) (fills : List Fill) : ℚ :=
  fills.foldl (fun acc f =>
    if f.commissionAsset = "USDT" then acc + f.commission
    else if f.commissionAsset = "BNB" then
      match priceOf "BNBUSDT" with
      | some p => acc + f.commission * p
      | none => acc
    else
      match priceOf (f.commissionAsset ++ "USDT") with
      | some p => acc + f.commission * p
      | none => acc) 0

/-! Market-data cache (common/cache.py FileCache, instantiated at the price
payload, and data_service.get_price). -/

/-- The cached price payload: the stored dict plus its _stale tag. -/
structure PriceEntry where
  symbol : String
  price : ℚ
  stale : Bool
deriving DecidableEq

/-- One on-disk cache file: write timestamp plus payload. -/
structure CacheFile where
  ts : ℚ
  value : PriceEntry
deriving DecidableEq

/-- Config.stale_cache_max_age: 24 hours, in seconds. -/
def stale_cache_max_age : ℚ := 86400

/-- Config.cache_ttl for prices: 15 seconds. -/
def price_cache_ttl : ℚ := 15

/-- FileCache.get: a value within ttl is returned as stored; a value older
than ttl but within the 24-hour window is returned tagged stale; with no ttl
argument only the stale-window branch applies. -/
def file_cache_get (file : Option CacheFile) (now : ℚ) (ttl : Option ℚ) :
    Option PriceEntry :=
  match file with
  | none => none
  | some f =>
    let age := now - f.ts
    match ttl with
    | some t =>
      if age ≤ t then some f.value
      else if age ≤ stale_cache_max_age then some { f.value with stale := true }
      else none
    | none =>
      if age ≤ stale_cache_max_age then some { f.value with stale := true }
      else none

/-- Result of one get_price call: the returned payload, whether a live fetch
was attempted, and the cache file afterwards. -/
structure GetPriceOut where
  result : Option PriceEntry
  fetchAttempted : Bool
  cache : Option CacheFile
deriving DecidableEq

/-- data_service.get_price: consult the cache with the price ttl; on a miss
try the live fetch, caching a success; on a fetch failure fall back to the
no-ttl (stale window) cache read. -/
def get_price (symbol : String) (file : Option CacheFile) (now : ℚ)
    (fetch : Except String ℚ) : GetPriceOut :=
  match file_cache_get file now (some price_cache_ttl) with
  | some c => ⟨some c, false, file⟩
  | none =>
    match fetch with
    | .ok p => ⟨some ⟨symbol, p, false⟩, true, some ⟨now, ⟨symbol, p, false⟩⟩⟩
    | .error _ => ⟨file_cache_get file now none, true, file⟩

/-! The ledger store (db.py). -/

/-- One row of the trades table, restricted to the columns the verified flows
read and write. entry_price is non-optional: every row written by buy sets it
(the legacy NULL-column corner is not modelled). -/
structure TradeRecord where
  trade_id : String
  symbol : String
  side : String
  direction : String
  quantity : ℚ
  price : ℚ
  entry_price : ℚ
  exit_price : Option ℚ
  total_value : ℚ
  pnl : ℚ
  pnl_percent : ℚ
  fee_usdt_value : ℚ
  stop_loss : Option ℚ
  trailing_stop_price : Option ℚ
  highest_price : Option ℚ
  trailing_stop_pct : Option ℚ
  entry_type : Option String
  exit_reason : Option String
  atr : Option ℚ
  is_open : Bool
  holding_period : Option ℤ
  timestamp : ℤ
  exit_time : Option ℤ
deriving DecidableEq

/-- A partial update for db.update_trade: some field means the key is present
in the updates dict (restricted to the allowed-key set of db.update_trade). -/
structure TradeUpdates where
  exit_price : Option ℚ := none
  exit_time : Option ℤ := none
  pnl : Option ℚ := none
  pnl_percent : Option ℚ := none
  fee_usdt_value : Option ℚ := none
  stop_loss : Option ℚ := none
  trailing_stop_price : Option ℚ := none
  highest_price : Option ℚ := none
  trailing_stop_pct : Option ℚ := none
  exit_reason : Option String := none
  is_open : Option Bool := none
  holding_period : Option ℤ := none
  entry_type : Option String := none
deriving DecidableEq

/-- The JSON payload of a recovery-queue row: either a full trade record (from
a failed post-buy insert) or a trade_id plus partial update (from a failed
post-sell update). -/
inductive RecoveryPayload where
  | trade (t : TradeRecord)
  | update (trade_id : String) (updates : TradeUpdates)
deriving DecidableEq

/-- One row of the recovery_queue table. -/
structure RecoveryItem where
  id : ℕ
  trade_data : RecoveryPayload
  reason : String
  resolved : Bool
deriving DecidableEq

/-- The durable store: trades, config table, recovery queue, and the
autoincrement counter for recovery ids. -/
structure Ledger where
  trades : List TradeRecord
  config : List (String × String)
  recovery : List RecoveryItem
  nextRecoveryId : ℕ
deriving DecidableEq

/-- First-match association lookup (SQL point query on a keyed table). -/
def assoc_lookup {α : Type} : List (String × α) → String → Option α
  | [], _ => none
  | (k, v) :: rest, key => if k = key then some v else assoc_lookup rest key

/-- db.get_config_value. -/
def get_config_value (led : Ledger) (key : String) : Option String :=
  assoc_lookup led.config key

/-- Digits of a decimal literal to a natural; none on a non-digit. The empty
list parses as 0 (callers guard the all-empty case). -/
def parse_digits (cs : List Char) : Option ℕ :=
  cs.foldl (fun acc c =>
    match acc with
    | none => none
    | some n => if c.isDigit then some (n * 10 + (c.toNat - 48)) else none)
    (some 0)

/-- Python float() on the plain decimal literals the config store holds; the
exponent, inf/nan, underscore and whitespace forms are outside the verified
inputs and parse as none (modelling the raised ValueError). -/
def parse_float (s : String) : Option ℚ :=
  let sgn : ℚ := if s.startsWith "-" then -1 else 1
  let body := if s.startsWith "-" ∨ s.startsWith "+" then s.drop 1 else s
  if body.isEmpty then none
  else match body.splitOn "." with
  | [ip] => (parse_digits ip.toList).map (fun n => sgn * n)
  | [ip, fp] =>
    if ip.isEmpty ∧ fp.isEmpty then none
    else
      match parse_digits ip.toList, parse_digits fp.toList with
      | some i, some f => some (sgn * ((i : ℚ) + (f : ℚ) / 10 ^ fp.length))
      | _, _ => none
  | _ => none

/-- The static Config defaults (common/config.py), keyed as getattr does.
Only the keys the engine actually passes are meaningful. -/
def static_default (key : String) : ℚ :=
  if key = "default_allocation" then 15/100
  else if key = "default_stop_loss_pct" then 5/100
  else if key = "default_trailing_stop_pct" then 3/100
  else if key = "risk_per_trade" then 98/100
  else if key = "min_trade_usdt" then 10
  else if key = "cash_buffer" then 1/100
  else if key = "max_portfolio_exposure" then 95/100
  else if key = "max_capital_at_risk" then 999999
  else if key = "stop_loss_atr_multiplier" then 3/2
  else 0

/-- engine._get_effective_config: DB override parsed as float (none models the
ValueError a malformed override raises), else the static default. -/
def get_effective_config (led : Ledger) (key : String) : Option ℚ :=
  match get_config_value led key with
  | some s => parse_float s
  | none => some (static_default key)

/-- db.get_open_trade_by_symbol: first open row for the symbol. -/
def find_open_by_symbol : List TradeRecord → String → Option TradeRecord
  | [], _ => none
  | t :: rest, s =>
    if t.symbol = s ∧ t.is_open then some t else find_open_by_symbol rest s

def get_open_trade_by_symbol (led : Ledger) (symbol : String) : Option TradeRecord :=
  find_open_by_symbol led.trades symbol

/-- db.get_open_trades (the timestamp ordering of the SQL query is dropped;
nothing verified depends on it). -/
def get_open_trades (led : Ledger) : List TradeRecord :=
  led.trades.filter (fun t => t.is_open)

/-- db.get_trade_by_id: first row with the trade_id. -/
def find_by_id : List TradeRecord → String → Option TradeRecord
  | [], _ => none
  | t :: rest, tid => if t.trade_id = tid then some t else find_by_id rest tid

def get_trade_by_id (led : Ledger) (tid : String) : Option TradeRecord :=
  find_by_id led.trades tid

/-- The row db.save_trade actually inserts from a trade dict: the exit columns
and realized P&L are left at their schema defaults. -/
def saved_row (t : TradeRecord) : TradeRecord :=
  { t with exit_price := none, exit_reason := none, exit_time := none,
           holding_period := none, pnl := 0, pnl_percent := 0 }

/-- db.save_trade: INSERT; the UNIQUE constraint on trade_id raises on a
duplicate. -/
def save_trade (led : Ledger) (t : TradeRecord) : Except Unit Ledger :=
  if led.trades.any (fun u => u.trade_id == t.trade_id) then .error ()
  else .ok { led with trades := led.trades ++ [saved_row t] }

/-- Apply a db.update_trade updates dict to one row. -/
def apply_updates (t : TradeRecord) (u : TradeUpdates) : TradeRecord :=
  { t with
    exit_price := match u.exit_price with | some v => some v | none => t.exit_price
    exit_time := match u.exit_time with | some v => some v | none => t.exit_time
    pnl := match u.pnl with | some v => v | none => t.pnl
    pnl_percent := match u.pnl_percent with | some v => v | none => t.pnl_percent
    fee_usdt_value := match u.fee_usdt_value with | some v => v | none => t.fee_usdt_value
    stop_loss := match u.stop_loss with | some v => some v | none => t.stop_loss
    trailing_stop_price := match u.trailing_stop_price with | some v => some v | none => t.trailing_stop_price
    highest_price := match u.highest_price with | some v => some v | none => t.highest_price
    trailing_stop_pct := match u.trailing_stop_pct with | some v => some v | none => t.trailing_stop_pct
    exit_reason := match u.exit_reason with | some v => some v | none => t.exit_reason
    is_open := match u.is_open with | some v => v | none => t.is_open
    holding_period := match u.holding_period with | some v => some v | none => t.holding_period
    entry_type := match u.entry_type with | some v => some v | none => t.entry_type }

/-- db.update_trade: UPDATE ... WHERE trade_id = ?; zero matching rows is not
an error. -/
def update_trade (led : Ledger) (tid : String) (u : TradeUpdates) : Ledger :=
  { led with trades := led.trades.map (fun t => if t.trade_id = tid then apply_updates t u else t) }

/-- db.add_to_recovery_queue: append an unresolved item with the next id. -/
def add_to_recovery_queue (led : Ledger) (payload : RecoveryPayload) (reason : String) : Ledger :=
  { led with
    recovery := led.recovery ++ [⟨led.nextRecoveryId, payload, reason, false⟩],
    nextRecoveryId := led.nextRecoveryId + 1 }

/-- db.resolve_recovery_item: mark the row with the id resolved. -/
def resolve_recovery_item (led : Ledger) (itemId : ℕ) : Ledger :=
  { led with
    recovery := led.recovery.map (fun it => if it.id = itemId then { it with resolved := true } else it) }

/-! Advisory per-symbol file locks (engine._acquire_lock / _release_lock). -/

/-- A lock marker file: a well-formed pid|timestamp content, or a content that
fails to parse. -/
inductive LockContent where
  | valid (pid : ℕ) (time : ℚ)
  | malformed
deriving DecidableEq

/-- The lock directory as an association of symbol to marker content. -/
abbrev Locks := List (String × LockContent)

def lock_lookup : Locks → String → Option LockContent
  | [], _ => none
  | (k, v) :: rest, key => if k = key then some v else lock_lookup rest key

/-- Remove the marker for a symbol (unlink with missing_ok). -/
def erase_key (locks : Locks) (s : String) : Locks :=
  locks.filter (fun p => p.1 != s)

/-- engine._acquire_lock: fail fast on a marker at most 300 seconds old;
reclaim a stale or malformed marker; then write our own marker. -/
def acquire_lock (locks : Locks) (symbol : String) (now : ℚ) (pid : ℕ) : Bool × Locks :=
  match lock_lookup locks symbol with
  | some (.valid _ t) =>
    if 300 < now - t then (true, (symbol, .valid pid now) :: erase_key locks symbol)
    else (false, locks)
  | some .malformed => (true, (symbol, .valid pid now) :: erase_key locks symbol)
  | none => (true, (symbol, .valid pid now) :: erase_key locks symbol)

/-- engine._release_lock. -/
def release_lock (locks : Locks) (symbol : String) : Locks := erase_key locks symbol

/-! The trading engine (engine.py). -/

/-- External-world oracle for one buy invocation: data_service.get_price
results per symbol, the free USDT balance (or the account fetch error), the
calculate_atr result, the per-symbol LOT_SIZE step, the venue response to the
market buy, whether the environment lets the trade insert commit, and the
clock in milliseconds. -/
structure BuyExt where
  prices : String → Option ℚ
  account : Except String ℚ
  atr : Option ℚ
  stepOf : String → ℚ
  venueBuy : Except String OrderResp
  dbOk : Bool
  nowMs : ℤ

/-- The resolved sizing parameters of a buy call (engine.buy lines 157-165). -/
structure BuyParams where
  alloc : ℚ
  sl_pct : ℚ
  ts_pct : ℚ
  risk : ℚ
  min_trade : ℚ
  cash_buffer : ℚ
  max_exposure : ℚ
  max_cap : ℚ
deriving DecidableEq

/-- Parameter resolution of engine.buy: the allocation override goes through
Python truthiness (`allocation or default`), so an explicit 0.0 falls through
to the persisted override or static default; the stop overrides use an
is-not-None test. none models a ValueError raised by a malformed persisted
override. -/
def buy_params (led : Ledger) (allocation stop_loss_pct trailing_stop_pct : Option ℚ) :
    Option BuyParams := do
  let alloc ←
    match allocation with
    | some a => if a = 0 then get_effective_config led "default_allocation" else some a
    | none => get_effective_config led "default_allocation"
  let sl ←
    match stop_loss_pct with
    | some s => some s
    | none => get_effective_config led "default_stop_loss_pct"
  let ts ←
    match trailing_stop_pct with
    | some s => some s
    | none => get_effective_config led "default_trailing_stop_pct"
  let risk ← get_effective_config led "risk_per_trade"
  let min_trade ← get_effective_config led "min_trade_usdt"
  let cash_buffer ← get_effective_config led "cash_buffer"
  let max_exposure ← get_effective_config led "max_portfolio_exposure"
  let max_cap ← get_effective_config led "max_capital_at_risk"
  pure ⟨alloc, sl, ts, risk, min_trade, cash_buffer, max_exposure, max_cap⟩

/-- The current value of one open position inside engine._calculate_equity:
live price when available, entry-time price as fallback. -/
def position_value (prices : String → Option ℚ) (t : TradeRecord) : ℚ :=
  ((prices t.symbol).getD t.price) * t.quantity

/-- engine._calculate_equity reduced to what buy consumes: total equity, free
USDT and the crypto value of open positions; the account error becomes the
RuntimeError message buy catches. -/
def calculate_equity (led : Ledger) (ext : BuyExt) : Except String (ℚ × ℚ × ℚ) :=
  match ext.account with
  | .error e => .error ("Cannot fetch account: " ++ e)
  | .ok usdt =>
    let crypto := ((get_open_trades led).map (position_value ext.prices)).sum
    .ok (usdt + crypto, usdt, crypto)

/-- Position sizing of engine.buy lines 184-190. -/
def buy_sizing (bp : BuyParams) (total_equity usdt_balance remaining_exposure : ℚ) : ℚ :=
  let target := min (bp.alloc * total_equity) (remaining_exposure * total_equity)
  let amt := min (target * bp.risk) bp.max_cap
  if usdt_balance < amt then usdt_balance * (1 - bp.cash_buffer) else amt

/-- The resolved stop-loss mode of a buy: the (upper-cased) type, the ATR
value fetched when in ATR mode, and the ATR multiplier. none models the
ValueError of a malformed persisted multiplier override. -/
structure StopCtx where
  slt : String
  atr : Option ℚ
  mult : ℚ
deriving DecidableEq

/-- Stop-loss mode resolution of engine.buy lines 204-210: the persisted type
(empty string falls through to the default by truthiness), upper-cased; ATR
and its multiplier are only fetched in ATR mode. -/
def stop_ctx (led : Ledger) (ext : BuyExt) : Option StopCtx :=
  let slt := str_to_upper
    (match get_config_value led "stop_loss_type" with
     | some s => if s = "" then "FIXED" else s
     | none => "FIXED")
  if slt = "ATR" then
    (get_effective_config led "stop_loss_atr_multiplier").map (fun m => ⟨slt, ext.atr, m⟩)
  else some ⟨slt, none, 0⟩

/-- The stop-loss price for a base price: ATR-based when in ATR mode with an
ATR value available, else the percentage stop. Used both for the pre-order
price and for the recomputation against the actual fill price. -/
def stop_price (sc : StopCtx) (sl_pct base : ℚ) : ℚ :=
  if sc.slt = "ATR" then
    match sc.atr with
    | some a => base - a * sc.mult
    | none => base * (1 - sl_pct)
  else base * (1 - sl_pct)

/-- The trailing-stop price for a base price: set only for a positive trailing
percent. -/
def trailing_price (ts_pct base : ℚ) : Option ℚ :=
  if 0 < ts_pct then some (base * (1 - ts_pct)) else none

/-- The trade dict engine.buy builds after a fill (lines 263-281). -/
def mk_trade_record (order : OrderResp) (symbol : String)
    (executed_qty entry_price total_value entry_fee stop_loss : ℚ)
    (trailing : Option ℚ) (ts_pct : ℚ) (entry_type : Option String)
    (atr : Option ℚ) (nowMs : ℤ) : TradeRecord :=
  { trade_id := order.orderId.getD ("UNKNOWN_" ++ toString nowMs)
    symbol := symbol
    side := "BUY"
    direction := "LONG"
    quantity := executed_qty
    price := entry_price
    entry_price := entry_price
    exit_price := none
    total_value := total_value
    pnl := 0
    pnl_percent := 0
    fee_usdt_value := entry_fee
    stop_loss := some stop_loss
    trailing_stop_price := trailing
    highest_price := some entry_price
    trailing_stop_pct := some ts_pct
    entry_type := entry_type
    exit_reason := none
    atr := atr
    is_open := true
    holding_period := none
    timestamp := nowMs
    exit_time := none }

/-- The dry-run plan dict of engine.buy lines 221-237. -/
structure DryTradeInfo where
  symbol : String
  side : String
  quantity : ℚ
  price : ℚ
  entry_price : ℚ
  total_value : ℚ
  fee_usdt_value : ℚ
  stop_loss : ℚ
  trailing_stop_price : Option ℚ
  trailing_stop_pct : ℚ
  highest_price : ℚ
  entry_type : Option String
  allocation_used : ℚ
  atr : Option ℚ
  stop_loss_type : String
deriving DecidableEq

/-- The result dict of engine.buy: a structured refusal, an exception escaping
buy (only a malformed persisted config override can raise out of buy), a
dry-run plan, or a live fill. -/
inductive BuyResult where
  | refusal (reason : String)
  | error (msg : String)
  | dryRun (info : DryTradeInfo)
  | filled (trade : TradeRecord)
deriving DecidableEq

/-- One buy invocation: its result, the store afterwards, and whether a venue
order call was reached. -/
structure BuyOutcome where
  result : BuyResult
  ledger : Ledger
  orderPlaced : Bool
deriving DecidableEq

/-- The live tail of engine.buy (lines 240-288): submit the market buy,
parse the fill, build the trade record, persist it — and on a failed insert
divert the full record to the recovery queue while still reporting success. -/
def buy_live (led : Ledger) (symbol : String) (entry_type : Option String)
    (ext : BuyExt) (bp : BuyParams) (sc : StopCtx) (quantity : ℚ) : BuyOutcome :=
  match execute_order (ext.stepOf symbol) ext.venueBuy "BUY" quantity with
  | .error e =>
    ⟨.refusal ("Order failed: " ++ order_error_msg e), led, places_order (.error e)⟩
  | .ok order =>
    if order.executedQty ≤ 0 then
      ⟨.refusal "Order filled 0 quantity", led, true⟩
    else
      let entry_price := order.cummulativeQuoteQty / order.executedQty
      let r := mk_trade_record order symbol order.executedQty entry_price
        order.cummulativeQuoteQty
        (calculate_order_fee ext.prices order.fills)
        (stop_price sc bp.sl_pct entry_price)
        (trailing_price bp.ts_pct entry_price)
        bp.ts_pct entry_type sc.atr ext.nowMs
      match (if ext.dbOk then save_trade led r else .error ()) with
      | .ok led2 => ⟨.filled r, led2, true⟩
      | .error _ =>
        ⟨.filled r,
          add_to_recovery_queue led (.trade r) "save_trade_failed_after_buy",
          true⟩

/-- engine.buy, line for line: halt gate, duplicate-position gate, parameter
resolution, equity and exposure gates, sizing and minimum gate, price fetch,
stop levels, then either the dry-run plan or the live order; a fill is
persisted, and a failed insert after a fill is diverted to the recovery
queue while the call still reports success. -/
def buy (led : Ledger) (symbol : String)
    (allocation stop_loss_pct trailing_stop_pct : Option ℚ)
    (entry_type : Option String) (dry_run : Bool) (ext : BuyExt) : BuyOutcome :=
  if get_config_value led "trading_halted" = some "1" then
    ⟨.refusal "Trading is halted", led, false⟩
  else if (get_open_trade_by_symbol led symbol).isSome then
    ⟨.refusal ("Already have an open position in " ++ symbol), led, false⟩
  else
    match buy_params led allocation stop_loss_pct trailing_stop_pct with
    | none => ⟨.error "invalid numeric value in config store", led, false⟩
    | some bp =>
      match calculate_equity led ext with
      | .error e => ⟨.refusal e, led, false⟩
      | .ok (total_equity, usdt_balance, crypto_value) =>
        if total_equity ≤ 0 then ⟨.refusal "No equity available", led, false⟩
        else
          let current_exposure := crypto_value / total_equity
          let remaining_exposure := max 0 (bp.max_exposure - current_exposure)
          if remaining_exposure ≤ 0 then
            ⟨.refusal "Portfolio exposure at maximum", led, false⟩
          else
            let trade_amount := buy_sizing bp total_equity usdt_balance remaining_exposure
            if trade_amount < bp.min_trade then
              ⟨.refusal "Trade amount below minimum", led, false⟩
            else
              match ext.prices symbol with
              | none => ⟨.refusal ("Cannot fetch price for " ++ symbol), led, false⟩
              | some current_price =>
                let quantity := trade_amount / current_price
                match stop_ctx led ext with
                | none => ⟨.error "invalid numeric value in config store", led, false⟩
                | some sc =>
                  if dry_run then
                    ⟨.dryRun
                      { symbol := symbol
                        side := "BUY"
                        quantity := step_size (ext.stepOf symbol) quantity
                        price := current_price
                        entry_price := current_price
                        total_value := trade_amount
                        fee_usdt_value := trade_amount * (1/1000)
                        stop_loss := stop_price sc bp.sl_pct current_price
                        trailing_stop_price := trailing_price bp.ts_pct current_price
                        trailing_stop_pct := bp.ts_pct
                        highest_price := current_price
                        entry_type := entry_type
                        allocation_used := bp.alloc
                        atr := sc.atr
                        stop_loss_type := sc.slt }, led, false⟩
                  else buy_live led symbol entry_type ext bp sc quantity

/-- External-world oracle for one close invocation. -/
structure CloseExt where
  prices : String → Option ℚ
  stepOf : String → ℚ
  venueSell : Except String OrderResp
  dbOk : Bool
  nowMs : ℤ
  now : ℚ
  pid : ℕ

/-- Python `reason or "manual_close"`: None and the empty string fall through
to the default. -/
def reason_or_default (reason : Option String) : String :=
  match reason with
  | some s => if s = "" then "manual_close" else s
  | none => "manual_close"

/-- The success payload of engine.close_position. -/
structure CloseSuccess where
  trade_id : String
  symbol : String
  entry_price : ℚ
  exit_price : ℚ
  quantity : ℚ
  pnl : ℚ
  pnl_percent : ℚ
  fee_usdt_value : ℚ
  holding_period : Option ℤ
  reason : String
  dry_run : Bool
deriving DecidableEq

inductive CloseResult where
  | refusal (reason : String)
  | success (s : CloseSuccess)
deriving DecidableEq

/-- One close invocation: its result, the store, the lock directory, and
whether a venue sell call was reached. -/
structure CloseOutcome where
  result : CloseResult
  ledger : Ledger
  locks : Locks
  sellPlaced : Bool
deriving DecidableEq

/-- engine.close_position, line for line: price fetch (refusal on failure),
preview P&L, dry-run early return; otherwise acquire the per-symbol lock
(distinct refusal on contention), sell, compute final P&L from the actual
fill, persist the terminal update (recovery enqueue on a failed write), and
release the lock on every exit path of the guarded block. -/
def close_position (trade : TradeRecord) (reason : Option String) (dry_run : Bool)
    (led : Ledger) (locks : Locks) (ext : CloseExt) : CloseOutcome :=
  let symbol := trade.symbol
  let quantity := trade.quantity
  let entry_price := trade.entry_price
  match ext.prices symbol with
  | none => ⟨.refusal ("Cannot fetch price for " ++ symbol), led, locks, false⟩
  | some current_price =>
    let gross_pnl := current_price * quantity - entry_price * quantity
    let pnl_pct :=
      if 0 < entry_price * quantity then gross_pnl / (entry_price * quantity) * 100 else 0
    if dry_run then
      ⟨.success
        { trade_id := trade.trade_id
          symbol := symbol
          entry_price := entry_price
          exit_price := current_price
          quantity := quantity
          pnl := gross_pnl
          pnl_percent := pnl_pct
          fee_usdt_value := trade.fee_usdt_value + current_price * quantity * (1/1000)
          holding_period := none
          reason := reason_or_default reason
          dry_run := true }, led, locks, false⟩
    else
      match acquire_lock locks symbol ext.now ext.pid with
      | (false, locks2) =>
        ⟨.refusal ("Cannot acquire lock for " ++ symbol ++ " — another close may be in progress"),
          led, locks2, false⟩
      | (true, locks2) =>
        match execute_order (ext.stepOf symbol) ext.venueSell "SELL" quantity with
        | .error e =>
          ⟨.refusal ("Sell order failed: " ++ order_error_msg e), led,
            release_lock locks2 symbol, places_order (.error e)⟩
        | .ok order =>
          if order.executedQty ≤ 0 then
            ⟨.refusal "Sell order filled 0 quantity", led, release_lock locks2 symbol, true⟩
          else
            let exit_price := order.cummulativeQuoteQty / order.executedQty
            let total_fees := trade.fee_usdt_value + calculate_order_fee ext.prices order.fills
            let gross_pnl2 := exit_price * order.executedQty - entry_price * quantity
            let pnl_pct2 :=
              if 0 < entry_price * quantity then gross_pnl2 / (entry_price * quantity) * 100 else 0
            let holding_period := ext.nowMs - trade.timestamp
            let updates : TradeUpdates :=
              { is_open := some false
                exit_price := some exit_price
                exit_time := some ext.nowMs
                pnl := some gross_pnl2
                pnl_percent := some pnl_pct2
                fee_usdt_value := some total_fees
                exit_reason := some (reason_or_default reason)
                holding_period := some holding_period }
            let led2 :=
              if ext.dbOk then update_trade led trade.trade_id updates
              else add_to_recovery_queue led (.update trade.trade_id updates)
                "update_trade_failed_after_sell"
            ⟨.success
              { trade_id := trade.trade_id
                symbol := symbol
                entry_price := entry_price
                exit_price := exit_price
                quantity := order.executedQty
                pnl := gross_pnl2
                pnl_percent := pnl_pct2
                fee_usdt_value := total_fees
                holding_period := some holding_period
                reason := reason_or_default reason
                dry_run := false }, led2, release_lock locks2 symbol, true⟩

/-- engine.sell: look up the open position for the symbol and close it. -/
def sell (symbol : String) (reason : Option String) (dry_run : Bool)
    (led : Ledger) (locks : Locks) (ext : CloseExt) : CloseOutcome :=
  match get_open_trade_by_symbol led symbol with
  | none => ⟨.refusal ("No open position found for " ++ symbol), led, locks, false⟩
  | some trade => close_position trade reason dry_run led locks ext

/-! The exit-condition evaluator (risk.py). -/

/-- Per-position detail of risk.check_exit_conditions. -/
structure CheckDetail where
  symbol : String
  current_price : ℚ
  entry_price : ℚ
  closed : Bool
  reason : Option String
  trigger_price : Option ℚ
  highest_price_updated : Option ℚ
  trailing_stop_updated : Option ℚ
deriving DecidableEq

/-- The fixed-stop breach test, with Python truthiness on the stored stop
(`if stop_loss and current_price <= stop_loss`). -/
def stop_loss_triggered (t : TradeRecord) (price : ℚ) : Bool :=
  match t.stop_loss with
  | some sl => decide (sl ≠ 0 ∧ price ≤ sl)
  | none => false

/-- The trailing-stop gate: the global switch plus a truthy, positive stored
trailing percent. -/
def trailing_active (enable : Bool) (t : TradeRecord) : Bool :=
  enable &&
    match t.trailing_stop_pct with
    | some τ => decide (τ ≠ 0 ∧ 0 < τ)
    | none => false

/-- The effective high-water mark: `trade.get("highest_price") or entry_price`
(absent or zero falls back to the entry price). -/
def effective_highest (t : TradeRecord) : ℚ :=
  match t.highest_price with
  | some h => if h = 0 then t.entry_price else h
  | none => t.entry_price

/-- The ratchet update dict persisted by risk._check_single_position. -/
def ratchet_updates (price τ : ℚ) : TradeUpdates :=
  { highest_price := some price, trailing_stop_price := some (price * (1 - τ)) }

/-- risk._check_single_position: fixed stop first; then, when trailing is
active, ratchet the high-water mark and persist it immediately, and test the
freshest trailing stop (with the truthiness quirk that a ratchet to a zero
trailing value falls back to the stored one). The triggered close — in the
source an engine.close_position call — is returned as the third component for
the caller to apply. -/
def check_single_position (trade : TradeRecord) (enableTrailing : Bool)
    (currentPrice : ℚ) (led : Ledger) : CheckDetail × Ledger × Option String :=
  let base : CheckDetail :=
    ⟨trade.symbol, currentPrice, trade.entry_price, false, none, none, none, none⟩
  if stop_loss_triggered trade currentPrice then
    ({ base with closed := true, reason := some "STOP_LOSS", trigger_price := trade.stop_loss },
      led, some "STOP_LOSS")
  else if trailing_active enableTrailing trade then
    let τ := trade.trailing_stop_pct.getD 0
    let highest := effective_highest trade
    if highest < currentPrice then
      let newTrailing := currentPrice * (1 - τ)
      let led2 := update_trade led trade.trade_id (ratchet_updates currentPrice τ)
      let detail := { base with highest_price_updated := some currentPrice,
                                trailing_stop_updated := some newTrailing }
      let tstop : Option ℚ :=
        if newTrailing = 0 then trade.trailing_stop_price else some newTrailing
      match tstop with
      | some ts =>
        if ts ≠ 0 ∧ currentPrice ≤ ts then
          ({ detail with closed := true, reason := some "TRAILING_STOP", trigger_price := some ts },
            led2, some "TRAILING_STOP")
        else (detail, led2, none)
      | none => (detail, led2, none)
    else
      match trade.trailing_stop_price with
      | some ts =>
        if ts ≠ 0 ∧ currentPrice ≤ ts then
          ({ base with closed := true, reason := some "TRAILING_STOP", trigger_price := some ts },
            led, some "TRAILING_STOP")
        else (base, led, none)
      | none => (base, led, none)
  else (base, led, none)

/-- One evaluator pass over a single tracked position: re-read the row and run
the exit check when it is still open. -/
def eval_pass (tid : String) (enable : Bool) (p : ℚ) (led : Ledger) : Ledger :=
  match get_trade_by_id led tid with
  | some t => if t.is_open then (check_single_position t enable p led).2.1 else led
  | none => led

/-- A sequence of evaluator passes at the given observed prices. -/
def eval_passes (tid : String) (enable : Bool) (ps : List ℚ) (led : Ledger) : Ledger :=
  ps.foldl (fun l p => eval_pass tid enable p l) led

/-! Reconciliation (reconciliation.py). -/

/-- reconciliation._extract_asset_from_symbol. -/
def extract_asset_from_symbol (symbol : String) : String :=
  if str_ends_with symbol "USDT" then str_drop_right symbol 4 else symbol

/-- balances.get(asset, 0.0). -/
def balance_of (balances : List (String × ℚ)) (asset : String) : ℚ :=
  ((assoc_lookup balances asset).getD 0)

/-- A zombie report entry. -/
structure ZombieRec where
  trade_id : String
  symbol : String
  db_quantity : ℚ
  exchange_balance : ℚ
deriving DecidableEq

/-- A mismatch report entry. -/
structure MismatchRec where
  trade_id : String
  symbol : String
  db_quantity : ℚ
  exchange_balance : ℚ
  difference : ℚ
  difference_pct : ℚ
deriving DecidableEq

def zombie_entry (t : TradeRecord) (bal : ℚ) : ZombieRec :=
  ⟨t.trade_id, t.symbol, t.quantity, bal⟩

def mismatch_entry (t : TradeRecord) (bal : ℚ) : MismatchRec :=
  ⟨t.trade_id, t.symbol, t.quantity, bal, bal - t.quantity,
    |bal - t.quantity| / t.quantity * 100⟩

/-- reconciliation.detect_zombies: an open row whose exchange balance is below
1% of the recorded quantity. -/
def detect_zombies (open_trades : List TradeRecord) (balances : List (String × ℚ)) :
    List ZombieRec :=
  open_trades.filterMap (fun t =>
    let bal := balance_of balances (extract_asset_from_symbol t.symbol)
    if bal < t.quantity * (1/100) then some (zombie_entry t bal) else none)

/-- reconciliation.detect_mismatches: both sides positive and more than 1%
apart; only non-positive sides are skipped (the comment attributes those to
zombie detection). -/
def detect_mismatches (open_trades : List TradeRecord) (balances : List (String × ℚ)) :
    List MismatchRec :=
  open_trades.filterMap (fun t =>
    let bal := balance_of balances (extract_asset_from_symbol t.symbol)
    if bal ≤ 0 ∨ t.quantity ≤ 0 then none
    else if 1 < |bal - t.quantity| / t.quantity * 100 then some (mismatch_entry t bal)
    else none)

/-- The result dict of reconciliation.retry_recovery_item. -/
structure RetryResult where
  success : Bool
  action : Option String
  trade_id : Option String
  reason : Option String
deriving DecidableEq

/-- An updates dict with no keys (falsy in Python). -/
def empty_updates : TradeUpdates := {}

/-- reconciliation.retry_recovery_item: dispatch on the failure-reason tag;
replay the missing insert or the missing partial update, then mark the item
resolved; a raised replay (modelled by dbOk = false or a payload shape the
replayed write rejects) is caught and reported as a failure. -/
def retry_recovery_item (item : RecoveryItem) (led : Ledger) (dbOk : Bool) :
    RetryResult × Ledger :=
  if item.reason = "save_trade_failed_after_buy" then
    match item.trade_data with
    | .trade td =>
      match (if dbOk then save_trade led td else .error ()) with
      | .ok led2 =>
        (⟨true, some "saved_trade", some td.trade_id, none⟩,
          resolve_recovery_item led2 item.id)
      | .error _ => (⟨false, none, none, some "save_trade raised"⟩, led)
    | .update _ _ => (⟨false, none, none, some "save_trade raised"⟩, led)
  else if item.reason = "update_trade_failed_after_sell" then
    match item.trade_data with
    | .update tid u =>
      if tid = "" ∨ u = empty_updates then
        (⟨false, none, none, some "Missing trade_id or updates in recovery data"⟩, led)
      else if dbOk then
        (⟨true, some "updated_trade", some tid, none⟩,
          resolve_recovery_item (update_trade led tid u) item.id)
      else (⟨false, none, none, some "update_trade raised"⟩, led)
    | .trade _ =>
      (⟨false, none, none, some "Missing trade_id or updates in recovery data"⟩, led)
  else (⟨false, none, none, some ("Unknown recovery type: " ++ item.reason)⟩, led)

/-- The exchange balance seen by reconciliation for the asset of a trade. -/
def asset_balance (balances : List (String × ℚ)) (t : TradeRecord) : ℚ :=
  balance_of balances (extract_asset_from_symbol t.symbol)

/-- The state invariant that buy establishes and the ratchet preserves for a
tracked position: the stored trailing stop is positive and at most the stored
high-water mark scaled by (1 - trail_pct). -/
def trailing_invariant (led : Ledger) (tid : String) (τ v : ℚ) : Prop :=
  ∃ t h, get_trade_by_id led tid = some t ∧ t.trailing_stop_pct = some τ ∧
    t.highest_price = some h ∧ t.trailing_stop_price = some v ∧
    0 < v ∧ v ≤ h * (1 - τ)

/-! Concrete fixtures for witnesses and counterexamples. -/

/-- A price oracle quoting one symbol. -/
def px_fun (p : ℚ) : String → Option ℚ := fun s => if s = "BTCUSDT" then some p else none

/-- An empty store. -/
def led0 : Ledger := ⟨[], [], [], 1⟩

/-- A representative open BTCUSDT position: quantity 1 at entry 100. -/
def trade_btc : TradeRecord :=
  { trade_id := "T1", symbol := "BTCUSDT", side := "BUY", direction := "LONG",
    quantity := 1, price := 100, entry_price := 100, exit_price := none,
    total_value := 100, pnl := 0, pnl_percent := 0, fee_usdt_value := 0,
    stop_loss := none, trailing_stop_price := none, highest_price := none,
    trailing_stop_pct := none, entry_type := none, exit_reason := none,
    atr := none, is_open := true, holding_period := none, timestamp := 0,
    exit_time := none }

/-- trade_btc with the stop and trailing fields a live buy would set
(5% stop, 3% trailing). -/
def trade_btc_trailing : TradeRecord :=
  { trade_btc with
    stop_loss := some 95, trailing_stop_price := some 97,
    highest_price := some 100, trailing_stop_pct := some (3/100) }

/-- A store holding the open position, with the halt flag set. -/
def led_halted : Ledger := ⟨[trade_btc], [("trading_halted", "1")], [], 1⟩

/-- A store holding the trailing position. -/
def led_trailing : Ledger := ⟨[trade_btc_trailing], [], [], 1⟩

/-- A buy fill response: 1 unit for 100 USDT. -/
def order_buy_fill : OrderResp := ⟨some "42", 1, 100, []⟩

/-- A sell fill response: 1 unit for 110 USDT. -/
def order_sell_fill : OrderResp := ⟨some "43", 1, 110, []⟩

/-- A buy oracle: price 100, 1000 USDT free, fine step, successful venue buy;
the insert is left to the dbOk argument. -/
def buy_ext_ok (dbOk : Bool) : BuyExt :=
  ⟨px_fun 100, .ok 1000, none, fun _ => 1/1000, .ok order_buy_fill, dbOk, 0⟩

/-- A buy oracle whose venue step size (10) floors the computed quantity to
zero. -/
def buy_ext_coarse_step : BuyExt :=
  ⟨px_fun 100, .ok 1000, none, fun _ => 10, .ok order_buy_fill, true, 0⟩

/-- A close oracle: price 110, fine step, successful venue sell at 110. -/
def close_ext_ok : CloseExt :=
  ⟨px_fun 110, fun _ => 1/1000, .ok order_sell_fill, true, 1000, 5000, 7⟩

/-- A close oracle whose venue step size (10) floors the sell quantity to
zero. -/
def close_ext_coarse_step : CloseExt :=
  ⟨px_fun 110, fun _ => 10, .ok order_sell_fill, true, 1000, 5000, 7⟩

/-- A cache file written at time 0 holding price 100. -/
def stale_file : CacheFile := ⟨0, ⟨"BTCUSDT", 100, false⟩⟩

/-- The buy parameters resolved from the static defaults alone. -/
def bp_default : BuyParams := ⟨15/100, 5/100, 3/100, 98/100, 10, 1/100, 95/100, 999999⟩

/-- The trade record the fixture buy (price 100, defaults, fill of 1 unit for
100 USDT) builds. -/
def c1_record : TradeRecord :=
  mk_trade_record order_buy_fill "BTCUSDT" order_buy_fill.executedQty
    (order_buy_fill.cummulativeQuoteQty / order_buy_fill.executedQty)
    order_buy_fill.cummulativeQuoteQty
    (calculate_order_fee (buy_ext_ok false).prices order_buy_fill.fills)
    (stop_price ⟨"FIXED", none, 0⟩ bp_default.sl_pct
      (order_buy_fill.cummulativeQuoteQty / order_buy_fill.executedQty))
    (trailing_price bp_default.ts_pct
      (order_buy_fill.cummulativeQuoteQty / order_buy_fill.executedQty))
    bp_default.ts_pct none none (buy_ext_ok false).nowMs

/-! Helper lemmas. -/

theorem py_round_intCast (m : ℤ) : py_round (m : ℚ) = m := by
  simp [py_round]

theorem rat_pow10_inv (p : ℕ) (step : ℚ) (hnum : step.num = 1) (hden : step.den = 10 ^ p) :
    step = ((10 : ℚ) ^ p)⁻¹ := by
  have h := Rat.num_div_den step
  rw [hnum, hden] at h
  push_cast at h
  rw [← h, one_div]

theorem implied_precision_pow10 (p : ℕ) (step : ℚ)
    (hnum : step.num = 1) (hden : step.den = 10 ^ p) :
    implied_precision step = p := by
  unfold implied_precision
  rw [hnum, hden]
  rcases Nat.eq_zero_or_pos p with hp | hp
  · subst hp
    norm_num
  · have hp2 : ((10 : ℕ) ^ p) ^ 2 = 10 ^ (2 * p) := by
      rw [← pow_mul, Nat.mul_comm]
    have h1 : (10 : ℕ) ≤ 10 ^ (2 * p) := by
      calc (10 : ℕ) = 10 ^ 1 := by norm_num
        _ ≤ 10 ^ (2 * p) := Nat.pow_le_pow_right (by norm_num) (by omega)
    have hcond : ¬ ((10 ^ p) ^ 2 < 10 * (Int.natAbs 1) ^ 2) := by
      simp only [Int.natAbs_one, one_pow, mul_one, hp2]
      omega
    rw [if_neg hcond]
    have hdiv : ((10 : ℕ) ^ p) ^ 2 / (Int.natAbs 1) ^ 2 = 10 ^ (2 * p) := by
      simp only [Int.natAbs_one, one_pow, Nat.div_one, hp2]
    rw [hdiv, Nat.log_pow (by norm_num)]
    omega

/-- Quantization against a power-of-ten step floors to the step grid. -/
theorem step_size_pow10 (p : ℕ) (step q : ℚ)
    (hnum : step.num = 1) (hden : step.den = 10 ^ p) :
    step_size step q = (⌊q * 10 ^ p⌋ : ℚ) / 10 ^ p := by
  have hs : step = ((10 : ℚ) ^ p)⁻¹ := rat_pow10_inv p step hnum hden
  have hpos : (0 : ℚ) < 10 ^ p := by positivity
  have hns : ¬ step ≤ 0 := by
    rw [hs]
    exact not_le.mpr (by positivity)
  unfold step_size
  rw [if_neg hns, implied_precision_pow10 p step hnum hden, hs, div_eq_mul_inv q, inv_inv]
  unfold round_to
  have hmul : (⌊q * 10 ^ p⌋ : ℚ) * ((10 : ℚ) ^ p)⁻¹ * 10 ^ p = (⌊q * 10 ^ p⌋ : ℚ) := by
    field_simp
  rw [hmul, py_round_intCast]

/-- C8: for a power-of-ten step size 10^(-p) (the form the venue uses, whose
implied precision is p), quantization floors the requested quantity to the
nearest lower multiple of the step: the result is floor(q * 10^p) / 10^p. -/
theorem claim_c8_quantization_floors (p : ℕ) (step q : ℚ)
    (hnum : step.num = 1) (hden : step.den = 10 ^ p) :
    step_size step q = (⌊q * 10 ^ p⌋ : ℚ) / 10 ^ p :=
  step_size_pow10 p step q hnum hden

/-- Witness for C8 at the spec's example: step 0.001, quantity 1.23456 gives
1.234, while round-to-3-places would give 1.235. -/
theorem claim_c8_witness :
    step_size (1/1000) (123456/100000) = 1234/1000 ∧
    round_to (123456/100000) 3 = 1235/1000 := by
  have hfloor : ⌊(123456/100000 : ℚ) * 10 ^ 3⌋ = 1234 := by
    rw [Int.floor_eq_iff]
    norm_num
  constructor
  · refine (claim_c8_quantization_floors 3 (1/1000) (123456/100000)
      (by norm_num) (by norm_num)).trans ?_
    rw [hfloor]
    norm_num
  · have h2 : ⌊(123456/100000 : ℚ) * 10 ^ 3⌋ = (1234 : ℤ) := hfloor
    simp only [round_to, py_round, h2]
    norm_num

/-- C4 counterexample: an open position of quantity 1 whose exchange balance
is 0.005 (positive but below 1% of the recorded quantity) is classified as a
zombie AND reported as a mismatch — the claim asserts zombie pairs are
excluded from mismatch detection, but the code only skips non-positive
balances. -/
theorem claim_c4_counterexample :
    detect_zombies [trade_btc] [("BTC", 1/200)] = [⟨"T1", "BTCUSDT", 1, 1/200⟩] ∧
    detect_mismatches [trade_btc] [("BTC", 1/200)] =
      [⟨"T1", "BTCUSDT", 1, 1/200, 1/200 - 1, 199/2⟩] := by
  have hasset : extract_asset_from_symbol "BTCUSDT" = "BTC" := rfl
  constructor <;>
    norm_num [detect_zombies, detect_mismatches, balance_of, assoc_lookup,
      hasset, zombie_entry, mismatch_entry, trade_btc, abs_of_nonpos,
      List.filterMap_cons, List.filterMap_nil]

/-- C4 (amended): a mismatch entry for an open row is reported exactly when
both the exchange balance and the recorded quantity are positive and they
differ by more than 1%; a zombie entry exactly when the balance is below 1%
of the recorded quantity; hence a row with a positive balance below 1% of its
quantity appears in both reports (it is not excluded from mismatch
detection). -/
theorem claim_c4_amended (open_trades : List TradeRecord) (balances : List (String × ℚ))
    (t : TradeRecord) (ht : t ∈ open_trades) :
    (mismatch_entry t (asset_balance balances t) ∈ detect_mismatches open_trades balances ↔
      0 < asset_balance balances t ∧ 0 < t.quantity ∧
        1 < |asset_balance balances t - t.quantity| / t.quantity * 100) ∧
    (zombie_entry t (asset_balance balances t) ∈ detect_zombies open_trades balances ↔
      asset_balance balances t < t.quantity * (1/100)) ∧
    (0 < asset_balance balances t → asset_balance balances t < t.quantity * (1/100) →
      zombie_entry t (asset_balance balances t) ∈ detect_zombies open_trades balances ∧
      mismatch_entry t (asset_balance balances t) ∈ detect_mismatches open_trades balances) := by
  simp only [asset_balance]
  have hmis : mismatch_entry t (balance_of balances (extract_asset_from_symbol t.symbol)) ∈
      detect_mismatches open_trades balances ↔
      0 < balance_of balances (extract_asset_from_symbol t.symbol) ∧ 0 < t.quantity ∧
        1 < |balance_of balances (extract_asset_from_symbol t.symbol) - t.quantity| /
          t.quantity * 100 := by
    constructor
    · intro h
      obtain ⟨a, ha, hfa⟩ := List.mem_filterMap.mp h
      dsimp only at hfa
      by_cases h1 : balance_of balances (extract_asset_from_symbol a.symbol) ≤ 0 ∨
          a.quantity ≤ 0
      · rw [if_pos h1] at hfa
        exact absurd hfa (by simp)
      · rw [if_neg h1] at hfa
        by_cases h2 : 1 < |balance_of balances (extract_asset_from_symbol a.symbol) -
            a.quantity| / a.quantity * 100
        · rw [if_pos h2] at hfa
          have heq := Option.some.inj hfa
          rw [mismatch_entry, mismatch_entry, MismatchRec.mk.injEq] at heq
          obtain ⟨_, _, hq, hb, _, _⟩ := heq
          push_neg at h1
          obtain ⟨hb1, hq1⟩ := h1
          rw [← hb, ← hq]
          exact ⟨hb1, hq1, h2⟩
        · rw [if_neg h2] at hfa
          exact absurd hfa (by simp)
    · rintro ⟨hb, hq, hd⟩
      refine List.mem_filterMap.mpr ⟨t, ht, ?_⟩
      dsimp only
      rw [if_neg (by push_neg; exact ⟨hb, hq⟩), if_pos hd]
  have hzom : zombie_entry t (balance_of balances (extract_asset_from_symbol t.symbol)) ∈
      detect_zombies open_trades balances ↔
      balance_of balances (extract_asset_from_symbol t.symbol) < t.quantity * (1/100) := by
    constructor
    · intro h
      obtain ⟨a, ha, hfa⟩ := List.mem_filterMap.mp h
      dsimp only at hfa
      by_cases h1 : balance_of balances (extract_asset_from_symbol a.symbol) <
          a.quantity * (1/100)
      · rw [if_pos h1] at hfa
        have heq := Option.some.inj hfa
        rw [zombie_entry, zombie_entry, ZombieRec.mk.injEq] at heq
        obtain ⟨_, _, hq, hb⟩ := heq
        rw [← hb, ← hq]
        exact h1
      · rw [if_neg h1] at hfa
        exact absurd hfa (by simp)
    · intro h
      exact List.mem_filterMap.mpr ⟨t, ht, by dsimp only; rw [if_pos h]⟩
  refine ⟨hmis, hzom, fun hb hlt => ⟨hzom.mpr hlt, hmis.mpr ⟨hb, ?_, ?_⟩⟩⟩
  · nlinarith
  · have hq : 0 < t.quantity := by nlinarith
    have hblt : balance_of balances (extract_asset_from_symbol t.symbol) < t.quantity := by
      nlinarith
    have habs : |balance_of balances (extract_asset_from_symbol t.symbol) - t.quantity| =
        t.quantity - balance_of balances (extract_asset_from_symbol t.symbol) := by
      rw [abs_of_neg (by linarith)]
      ring
    rw [habs, div_mul_eq_mul_div, lt_div_iff₀ hq]
    nlinarith

/-- C5 counterexample: a cached price 20 seconds old (older than the 15-second
ttl, within the 24-hour window) is returned tagged stale with NO live fetch
attempted, even though the live fetch would have succeeded — the claim
asserts the degraded value is returned only after a live fetch was attempted
and failed. -/
theorem claim_c5_counterexample :
    get_price "BTCUSDT" (some stale_file) 20 (.ok 101) =
      ⟨some ⟨"BTCUSDT", 100, true⟩, false, some stale_file⟩ := by
  norm_num [get_price, file_cache_get, stale_file, price_cache_ttl, stale_cache_max_age]

/-- C5 (amended): any cached value within the 24-hour window — fresh or stale
— is returned directly with no live fetch attempted (within-ttl untagged,
older-than-ttl tagged degraded); a live fetch is attempted exactly when no
cached value within the window exists, and only a failed fetch with no such
cached value yields nothing. -/
theorem claim_c5_amended (symbol : String) (file : Option CacheFile) (now : ℚ)
    (fetch : Except String ℚ) :
    (∀ e, file_cache_get file now (some price_cache_ttl) = some e →
      get_price symbol file now fetch = ⟨some e, false, file⟩) ∧
    (∀ f, file = some f → now - f.ts ≤ price_cache_ttl →
      file_cache_get file now (some price_cache_ttl) = some f.value) ∧
    (∀ f, file = some f → price_cache_ttl < now - f.ts →
      now - f.ts ≤ stale_cache_max_age →
      file_cache_get file now (some price_cache_ttl) = some { f.value with stale := true }) ∧
    (file_cache_get file now (some price_cache_ttl) = none →
      (get_price symbol file now fetch).fetchAttempted = true ∧
      (∀ p, fetch = .ok p → get_price symbol file now fetch =
        ⟨some ⟨symbol, p, false⟩, true, some ⟨now, ⟨symbol, p, false⟩⟩⟩) ∧
      (∀ m, fetch = .error m → get_price symbol file now fetch = ⟨none, true, file⟩)) := by
  refine ⟨?_, ?_, ?_, ?_⟩
  · intro e he
    simp [get_price, he]
  · intro f hf hle
    subst hf
    simp only [file_cache_get]
    rw [if_pos hle]
  · intro f hf h1 h2
    subst hf
    simp only [file_cache_get]
    rw [if_neg (not_le.mpr h1), if_pos h2]
  · intro hnone
    have hnone2 : file_cache_get file now none = none := by
      cases file with
      | none => rfl
      | some f =>
        simp only [file_cache_get] at hnone ⊢
        by_cases h1 : now - f.ts ≤ price_cache_ttl
        · rw [if_pos h1] at hnone
          exact absurd hnone (by simp)
        · rw [if_neg h1] at hnone
          by_cases h2 : now - f.ts ≤ stale_cache_max_age
          · rw [if_pos h2] at hnone
            exact absurd hnone (by simp)
          · rw [if_neg h2] at hnone ⊢
    refine ⟨?_, ?_, ?_⟩
    · simp only [get_price, hnone]
      cases fetch <;> rfl
    · intro p hp
      simp [get_price, hnone, hp]
    · intro m hm
      simp [get_price, hnone, hm, hnone2]

/-- Witness for C4 (amended) at a concrete input: quantity 1 against balance
0.005 is reported both as zombie and as mismatch. -/
theorem claim_c4_witness :
    zombie_entry trade_btc (asset_balance [("BTC", 1/200)] trade_btc) ∈
      detect_zombies [trade_btc] [("BTC", 1/200)] ∧
    mismatch_entry trade_btc (asset_balance [("BTC", 1/200)] trade_btc) ∈
      detect_mismatches [trade_btc] [("BTC", 1/200)] :=
  (claim_c4_amended [trade_btc] [("BTC", 1/200)] trade_btc (by simp)).2.2
    (by
      have hasset : extract_asset_from_symbol "BTCUSDT" = "BTC" := rfl
      norm_num [asset_balance, balance_of, assoc_lookup, trade_btc, hasset])
    (by
      have hasset : extract_asset_from_symbol "BTCUSDT" = "BTC" := rfl
      norm_num [asset_balance, balance_of, assoc_lookup, trade_btc, hasset])

/-- Witness for C5 (amended): the stale-within-window cache value is returned
tagged, directly, when the live fetch fails too. -/
theorem claim_c5_witness :
    get_price "BTCUSDT" (some stale_file) 20 (.error "boom") =
      ⟨some ⟨"BTCUSDT", 100, true⟩, false, some stale_file⟩ :=
  (claim_c5_amended "BTCUSDT" (some stale_file) 20 (.error "boom")).1
    ⟨"BTCUSDT", 100, true⟩
    (by norm_num [file_cache_get, stale_file, price_cache_ttl, stale_cache_max_age])

/-! Lemmas about ledger updates, for the evaluator claims. -/

theorem apply_updates_trade_id (t : TradeRecord) (u : TradeUpdates) :
    (apply_updates t u).trade_id = t.trade_id := rfl

theorem find_by_id_map_update (l : List TradeRecord) (tid : String) (u : TradeUpdates) :
    find_by_id (l.map (fun t => if t.trade_id = tid then apply_updates t u else t)) tid =
      (find_by_id l tid).map (fun t => apply_updates t u) := by
  induction l with
  | nil => rfl
  | cons t rest ih =>
    by_cases h : t.trade_id = tid
    · simp [find_by_id, h, apply_updates_trade_id]
    · simp [find_by_id, h, ih]

theorem get_trade_by_id_update (led : Ledger) (tid : String) (u : TradeUpdates) :
    get_trade_by_id (update_trade led tid u) tid =
      (get_trade_by_id led tid).map (fun t => apply_updates t u) := by
  simp [get_trade_by_id, update_trade, find_by_id_map_update]

theorem find_by_id_id_eq (l : List TradeRecord) (tid : String) (t : TradeRecord)
    (h : find_by_id l tid = some t) : t.trade_id = tid := by
  induction l with
  | nil => simp [find_by_id] at h
  | cons a rest ih =>
    by_cases ha : a.trade_id = tid
    · rw [find_by_id, if_pos ha] at h
      cases h
      exact ha
    · rw [find_by_id, if_neg ha] at h
      exact ih h

/-- In the ratchet branch, check_single_position persists the ratchet no
matter what the subsequent close decision is. -/
theorem check_single_ratchet (trade : TradeRecord) (enable : Bool) (p : ℚ)
    (led : Ledger) (τ : ℚ)
    (hstop : stop_loss_triggered trade p = false)
    (henable : enable = true)
    (hpct : trade.trailing_stop_pct = some τ)
    (hτ : 0 < τ)
    (hhigh : effective_highest trade < p) :
    (check_single_position trade enable p led).2.1 =
      update_trade led trade.trade_id (ratchet_updates p τ) := by
  have hactive : trailing_active enable trade = true := by
    simp [trailing_active, henable, hpct, ne_of_gt hτ, hτ]
  simp only [check_single_position, hstop, Bool.false_eq_true, if_false, hactive, if_true,
    hpct, Option.getD_some, if_pos hhigh]
  split
  · split
    · rfl
    · rfl
  · rfl

/-- Every outcome of check_single_position leaves the store unchanged or
applies exactly the ratchet update. -/
theorem check_single_ledger_cases (trade : TradeRecord) (enable : Bool) (p : ℚ)
    (led : Ledger) :
    (check_single_position trade enable p led).2.1 = led ∨
    ((check_single_position trade enable p led).2.1 =
        update_trade led trade.trade_id (ratchet_updates p (trade.trailing_stop_pct.getD 0)) ∧
      stop_loss_triggered trade p = false ∧ trailing_active enable trade = true ∧
      effective_highest trade < p) := by
  by_cases h1 : stop_loss_triggered trade p
  · left
    simp [check_single_position, h1]
  · by_cases h2 : trailing_active enable trade
    · by_cases h3 : effective_highest trade < p
      · right
        refine ⟨?_, by simpa using h1, h2, h3⟩
        simp only [check_single_position, eq_false_of_ne_true h1, Bool.false_eq_true, if_false,
          h2, if_true, if_pos h3]
        split
        · split
          · rfl
          · rfl
        · rfl
      · left
        simp only [check_single_position, eq_false_of_ne_true h1, Bool.false_eq_true, if_false,
          h2, if_true, if_neg h3]
        split
        · split
          · rfl
          · rfl
        · rfl
    · left
      simp [check_single_position, h1, h2]

/-- One evaluator pass preserves the trailing invariant and never decreases
the stored trailing stop. -/
theorem eval_pass_invariant (tid : String) (enable : Bool) (p : ℚ) (led : Ledger)
    (τ v : ℚ) (hτ : 0 < τ) (hτ1 : τ < 1) (hinv : trailing_invariant led tid τ v) :
    ∃ v2, trailing_invariant (eval_pass tid enable p led) tid τ v2 ∧ v ≤ v2 := by
  obtain ⟨t, h, hget, hpct, hhigh, htrail, hv, hle⟩ := hinv
  have h1τ : 0 < 1 - τ := by linarith
  have hhpos : 0 < h := by nlinarith
  simp only [eval_pass, hget]
  by_cases hopen : t.is_open
  · rw [if_pos hopen]
    rcases check_single_ledger_cases t enable p led with hcase | ⟨hcase, _, _, hplarge⟩
    · rw [hcase]
      exact ⟨v, ⟨t, h, hget, hpct, hhigh, htrail, hv, hle⟩, le_refl v⟩
    · rw [hcase]
      have htid : t.trade_id = tid := find_by_id_id_eq led.trades tid t hget
      have heff : effective_highest t = h := by
        simp [effective_highest, hhigh, ne_of_gt hhpos]
      rw [hpct] at hcase ⊢
      refine ⟨p * (1 - τ), ⟨apply_updates t (ratchet_updates p τ), p, ?_, ?_, ?_, ?_, ?_, ?_⟩, ?_⟩
      · rw [← htid, get_trade_by_id_update, htid, hget, Option.map_some']
        simp [Option.getD_some]
      · simp [apply_updates, ratchet_updates, hpct]
      · simp [apply_updates, ratchet_updates]
      · simp [apply_updates, ratchet_updates]
      · rw [heff] at hplarge
        nlinarith
      · exact le_refl _
      · rw [heff] at hplarge
        nlinarith
  · rw [if_neg hopen]
    exact ⟨v, ⟨t, h, hget, hpct, hhigh, htrail, hv, hle⟩, le_refl v⟩

/-- A sequence of passes preserves the invariant and never decreases the
stored trailing stop. -/
theorem eval_passes_invariant (tid : String) (enable : Bool) (ps : List ℚ)
    (led : Ledger) (τ v : ℚ) (hτ : 0 < τ) (hτ1 : τ < 1)
    (hinv : trailing_invariant led tid τ v) :
    ∃ v2, trailing_invariant (eval_passes tid enable ps led) tid τ v2 ∧ v ≤ v2 := by
  induction ps generalizing led v with
  | nil => exact ⟨v, hinv, le_refl v⟩
  | cons p rest ih =>
    obtain ⟨v1, hinv1, hle1⟩ := eval_pass_invariant tid enable p led τ v hτ hτ1 hinv
    obtain ⟨v2, hinv2, hle2⟩ := ih (eval_pass tid enable p led) v1 hinv1
    exact ⟨v2, hinv2, le_trans hle1 hle2⟩

/-- C3: while trailing stops are enabled with a positive trailing percent,
an evaluator pass that observes a price strictly above the stored high-water
mark persists new high = price and new trailing stop = price x (1 - pct) to
the ledger, whatever the subsequent close decision is; and across any
sequence of evaluator passes the stored trailing stop never decreases (the
well-formedness invariant established by buy is preserved). -/
theorem claim_c3_trailing_ratchet :
    (∀ (trade : TradeRecord) (enable : Bool) (p : ℚ) (led : Ledger) (τ : ℚ),
      stop_loss_triggered trade p = false → enable = true →
      trade.trailing_stop_pct = some τ → 0 < τ → effective_highest trade < p →
      get_trade_by_id led trade.trade_id = some trade →
      get_trade_by_id (check_single_position trade enable p led).2.1 trade.trade_id =
        some { trade with highest_price := some p,
                          trailing_stop_price := some (p * (1 - τ)) }) ∧
    (∀ (tid : String) (enable : Bool) (ps : List ℚ) (led : Ledger) (τ v : ℚ),
      0 < τ → τ < 1 → trailing_invariant led tid τ v →
      ∃ v2, trailing_invariant (eval_passes tid enable ps led) tid τ v2 ∧ v ≤ v2) := by
  constructor
  · intro trade enable p led τ hstop henable hpct hτ hhigh hget
    rw [check_single_ratchet trade enable p led τ hstop henable hpct hτ hhigh,
      get_trade_by_id_update, hget, Option.map_some']
    simp [apply_updates, ratchet_updates]
  · intro tid enable ps led τ v hτ hτ1 hinv
    exact eval_passes_invariant tid enable ps led τ v hτ hτ1 hinv

/-- Witness for C3: at price 110 the stored 100 high ratchets to 110 with
trailing stop 106.7; over passes at 110 then 120 the stored trailing stop
never drops below its initial 97. -/
theorem claim_c3_witness :
    get_trade_by_id (check_single_position trade_btc_trailing true 110 led_trailing).2.1
        trade_btc_trailing.trade_id =
      some { trade_btc_trailing with highest_price := some 110,
                                     trailing_stop_price := some (110 * (1 - 3/100)) } ∧
    ∃ v2, trailing_invariant (eval_passes "T1" true [110, 120] led_trailing) "T1" (3/100) v2 ∧
      (97 : ℚ) ≤ v2 := by
  constructor
  · exact claim_c3_trailing_ratchet.1 trade_btc_trailing true 110 led_trailing (3/100)
      (by norm_num [stop_loss_triggered, trade_btc_trailing, trade_btc])
      rfl rfl (by norm_num)
      (by norm_num [effective_highest, trade_btc_trailing, trade_btc])
      (by simp [get_trade_by_id, find_by_id, led_trailing, trade_btc_trailing, trade_btc])
  · exact claim_c3_trailing_ratchet.2 "T1" true [110, 120] led_trailing (3/100) 97
      (by norm_num) (by norm_num)
      ⟨trade_btc_trailing, 100,
        by simp [get_trade_by_id, find_by_id, led_trailing, trade_btc_trailing, trade_btc],
        rfl, rfl, rfl, by norm_num, by norm_num⟩

/-! Lemmas about the advisory locks. -/

theorem lock_lookup_erase_key (l : Locks) (s : String) :
    lock_lookup (erase_key l s) s = none := by
  induction l with
  | nil => rfl
  | cons p rest ih =>
    by_cases h : p.1 = s
    · simpa [erase_key, List.filter_cons, h] using ih
    · simpa [erase_key, List.filter_cons, h, lock_lookup] using ih

theorem erase_key_cons_self (s : String) (c : LockContent) (l : Locks) :
    erase_key ((s, c) :: l) s = erase_key l s := by
  simp [erase_key, List.filter_cons]

theorem erase_key_idem (l : Locks) (s : String) :
    erase_key (erase_key l s) s = erase_key l s := by
  induction l with
  | nil => rfl
  | cons p rest ih =>
    by_cases h : p.1 = s
    · simp only [erase_key, List.filter_cons] at ih ⊢
      simp [h, ih]
    · simp only [erase_key, List.filter_cons] at ih ⊢
      simp [h, ih]

theorem acquire_lock_fresh (locks : Locks) (s : String) (now : ℚ) (pid : ℕ)
    (h : lock_lookup locks s = none) :
    acquire_lock locks s now pid = (true, (s, .valid pid now) :: erase_key locks s) := by
  simp [acquire_lock, h]

/-- C9: a live close against a well-formed lock marker at most 300 seconds old
is refused with the distinct contention reason, with no sell order placed and
the marker left alone; a marker older than 300 seconds is reclaimed — the
close behaves exactly as if the marker were absent; and a live close that
acquired the lock has no marker left on any exit path. -/
theorem claim_c9_lock_contract :
    (∀ (trade : TradeRecord) (reason : Option String) (led : Ledger) (locks : Locks)
        (ext : CloseExt) (pid : ℕ) (t P2 : ℚ),
      ext.prices trade.symbol = some P2 →
      lock_lookup locks trade.symbol = some (.valid pid t) →
      ext.now - t ≤ 300 →
      close_position trade reason false led locks ext =
        ⟨.refusal ("Cannot acquire lock for " ++ trade.symbol ++
          " — another close may be in progress"), led, locks, false⟩) ∧
    (∀ (trade : TradeRecord) (reason : Option String) (led : Ledger) (locks : Locks)
        (ext : CloseExt) (pid : ℕ) (t P2 : ℚ),
      ext.prices trade.symbol = some P2 →
      lock_lookup locks trade.symbol = some (.valid pid t) →
      300 < ext.now - t →
      close_position trade reason false led locks ext =
        close_position trade reason false led (erase_key locks trade.symbol) ext) ∧
    (∀ (trade : TradeRecord) (reason : Option String) (led : Ledger) (locks : Locks)
        (ext : CloseExt) (P2 : ℚ),
      ext.prices trade.symbol = some P2 →
      lock_lookup locks trade.symbol = none →
      lock_lookup (close_position trade reason false led locks ext).locks trade.symbol =
        none) := by
  refine ⟨?_, ?_, ?_⟩
  · intro trade reason led locks ext pid t P2 hprice hlook hage
    have hacq : acquire_lock locks trade.symbol ext.now ext.pid = (false, locks) := by
      simp [acquire_lock, hlook, not_lt.mpr hage]
    simp [close_position, hprice, hacq]
  · intro trade reason led locks ext pid t P2 hprice hlook hage
    have hacq : acquire_lock locks trade.symbol ext.now ext.pid =
        (true, (trade.symbol, .valid ext.pid ext.now) :: erase_key locks trade.symbol) := by
      simp [acquire_lock, hlook, hage]
    have hacq2 : acquire_lock (erase_key locks trade.symbol) trade.symbol ext.now ext.pid =
        (true, (trade.symbol, .valid ext.pid ext.now) :: erase_key locks trade.symbol) := by
      rw [acquire_lock_fresh _ _ _ _ (lock_lookup_erase_key locks trade.symbol),
        erase_key_idem]
    simp only [close_position, hprice, hacq, hacq2, Bool.false_eq_true, if_false]
  · intro trade reason led locks ext P2 hprice hlook
    have hacq := acquire_lock_fresh locks trade.symbol ext.now ext.pid hlook
    have hrel : release_lock ((trade.symbol, LockContent.valid ext.pid ext.now) ::
        erase_key locks trade.symbol) trade.symbol = erase_key locks trade.symbol := by
      rw [release_lock, erase_key_cons_self, erase_key_idem]
    simp only [close_position, hprice, hacq]
    cases hE : execute_order (ext.stepOf trade.symbol) ext.venueSell "SELL" trade.quantity with
    | error e =>
      simp [hrel, lock_lookup_erase_key]
    | ok order =>
      by_cases hq : order.executedQty ≤ 0
      · simp [hq, hrel, lock_lookup_erase_key]
      · simp [hq, hrel, lock_lookup_erase_key]

/-- Witness for C9: a 100-second-old marker blocks the close; a 900-second-old
marker is reclaimed so the close runs as with no marker; with no marker the
lock is gone after the close. -/
theorem claim_c9_witness :
    (close_position trade_btc none false led_trailing
        [("BTCUSDT", .valid 1 4900)] close_ext_ok =
      ⟨.refusal ("Cannot acquire lock for BTCUSDT — another close may be in progress"),
        led_trailing, [("BTCUSDT", .valid 1 4900)], false⟩) ∧
    (close_position trade_btc none false led_trailing
        [("BTCUSDT", .valid 1 100)] close_ext_ok =
      close_position trade_btc none false led_trailing
        (erase_key [("BTCUSDT", .valid 1 100)] "BTCUSDT") close_ext_ok) ∧
    lock_lookup (close_position trade_btc none false led_trailing [] close_ext_ok).locks
      "BTCUSDT" = none := by
  refine ⟨?_, ?_, ?_⟩
  · have h := claim_c9_lock_contract.1 trade_btc none led_trailing
      [("BTCUSDT", .valid 1 4900)] close_ext_ok 1 4900 110
      (by norm_num [close_ext_ok, px_fun, trade_btc])
      (by simp [lock_lookup, trade_btc]) (by norm_num [close_ext_ok])
    simpa [trade_btc] using h
  · have h := claim_c9_lock_contract.2.1 trade_btc none led_trailing
      [("BTCUSDT", .valid 1 100)] close_ext_ok 1 100 110
      (by norm_num [close_ext_ok, px_fun, trade_btc])
      (by simp [lock_lookup, trade_btc]) (by norm_num [close_ext_ok])
    simpa [trade_btc] using h
  · have h := claim_c9_lock_contract.2.2 trade_btc none led_trailing [] close_ext_ok 110
      (by norm_num [close_ext_ok, px_fun, trade_btc]) (by simp [lock_lookup])
    simpa [trade_btc] using h

/-- C7: closing at entry P, quantity Q with current price P2 yields, exactly,
gross P&L (P2 - P) x Q and P&L% (P2 - P) / P x 100 — in a dry-run preview P2
is the fetched price, and in a live close P2 is the actual average sell fill
price, quote spent over filled quantity. -/
theorem claim_c7_close_pnl (trade : TradeRecord) (reason : Option String)
    (led : Ledger) (locks : Locks) (ext : CloseExt) (P Q P2 : ℚ)
    (hP : trade.entry_price = P) (hQ : trade.quantity = Q)
    (hPpos : 0 < P) (hQpos : 0 < Q)
    (hprice : ext.prices trade.symbol = some P2) :
    ((close_position trade reason true led locks ext).result = .success
      { trade_id := trade.trade_id, symbol := trade.symbol, entry_price := P,
        exit_price := P2, quantity := Q, pnl := (P2 - P) * Q,
        pnl_percent := (P2 - P) / P * 100,
        fee_usdt_value := trade.fee_usdt_value + P2 * Q * (1/1000),
        holding_period := none, reason := reason_or_default reason, dry_run := true }) ∧
    (∀ order : OrderResp,
      lock_lookup locks trade.symbol = none →
      execute_order (ext.stepOf trade.symbol) ext.venueSell "SELL" Q = .ok order →
      order.executedQty = Q →
      (close_position trade reason false led locks ext).result = .success
        { trade_id := trade.trade_id, symbol := trade.symbol, entry_price := P,
          exit_price := order.cummulativeQuoteQty / Q, quantity := Q,
          pnl := (order.cummulativeQuoteQty / Q - P) * Q,
          pnl_percent := (order.cummulativeQuoteQty / Q - P) / P * 100,
          fee_usdt_value := trade.fee_usdt_value + calculate_order_fee ext.prices order.fills,
          holding_period := some (ext.nowMs - trade.timestamp),
          reason := reason_or_default reason, dry_run := false }) := by
  have hPQ : 0 < P * Q := mul_pos hPpos hQpos
  constructor
  · simp only [close_position, hprice, if_true, hP, hQ, if_pos hPQ]
    simp only [CloseResult.success.injEq, CloseSuccess.mk.injEq, and_true, true_and]
    refine ⟨by ring, ?_⟩
    field_simp
    ring
  · intro order hlook hE hq
    have hacq := acquire_lock_fresh locks trade.symbol ext.now ext.pid hlook
    have hqn : ¬ (Q ≤ 0) := not_le.mpr hQpos
    simp only [close_position, hprice, Bool.false_eq_true, if_false, hacq, hP, hQ, hE,
      if_neg hqn, hq, if_pos hPQ]
    show CloseResult.success _ = CloseResult.success _
    simp only [CloseResult.success.injEq, CloseSuccess.mk.injEq, and_true, true_and]
    refine ⟨by ring, ?_⟩
    field_simp
    ring

/-- Witness for C7: entry 100, quantity 1, price 110 gives P&L 10 and 10% in
the preview, and the same from the live fill of 110 quote for 1 unit. -/
theorem claim_c7_witness :
    ((close_position trade_btc none true led_trailing [] close_ext_ok).result = .success
      { trade_id := "T1", symbol := "BTCUSDT", entry_price := 100, exit_price := 110,
        quantity := 1, pnl := (110 - 100) * 1, pnl_percent := (110 - 100) / 100 * 100,
        fee_usdt_value := 0 + 110 * 1 * (1/1000), holding_period := none,
        reason := "manual_close", dry_run := true }) ∧
    ((close_position trade_btc none false led_trailing [] close_ext_ok).result = .success
      { trade_id := "T1", symbol := "BTCUSDT", entry_price := 100, exit_price := 110 / 1,
        quantity := 1, pnl := (110 / 1 - 100) * 1, pnl_percent := (110 / 1 - 100) / 100 * 100,
        fee_usdt_value := 0 + calculate_order_fee close_ext_ok.prices order_sell_fill.fills,
        holding_period := some (1000 - 0), reason := "manual_close", dry_run := false }) := by
  have h := claim_c7_close_pnl trade_btc none led_trailing [] close_ext_ok 100 1 110
    rfl rfl (by norm_num) (by norm_num) (by norm_num [close_ext_ok, px_fun, trade_btc])
  constructor
  · have h1 := h.1
    simp only [trade_btc, reason_or_default] at h1
    exact h1
  · have h2 := h.2 order_sell_fill (by simp [lock_lookup])
      (by
        have hstep : step_size (1/1000) 1 = 1 := by
          refine (step_size_pow10 3 (1/1000) 1 (by norm_num) (by norm_num)).trans ?_
          norm_num
        have hpos : ¬ (step_size ((1:ℚ)/1000) 1 ≤ 0) := by
          rw [hstep]
          norm_num
        simp only [execute_order, close_ext_ok]
        rw [if_neg hpos]
        simp)
      (by norm_num [order_sell_fill])
    simp only [trade_btc, close_ext_ok, order_sell_fill, reason_or_default] at h2
    exact h2

/-- A fine step passes a sell of one unit through to the venue. -/
theorem execute_sell_fine :
    execute_order ((1:ℚ)/1000) (.ok order_sell_fill) "SELL" 1 = .ok order_sell_fill := by
  have hstep : step_size ((1:ℚ)/1000) 1 = 1 := by
    refine (step_size_pow10 3 (1/1000) 1 (by norm_num) (by norm_num)).trans ?_
    norm_num
  have hpos : ¬ (step_size ((1:ℚ)/1000) 1 ≤ 0) := by
    rw [hstep]
    norm_num
  simp only [execute_order]
  rw [if_neg hpos]
  simp

/-- C2: with the persisted halt flag set, every buy is refused with the
distinct halt reason before any venue order and before any ledger write,
while a sell (close_position) of an existing open position is not gated by
the flag and proceeds to a success. -/
theorem claim_c2_halt_gates :
    (∀ (led : Ledger) (symbol : String) (a sl ts : Option ℚ) (et : Option String)
        (dry : Bool) (ext : BuyExt),
      get_config_value led "trading_halted" = some "1" →
      buy led symbol a sl ts et dry ext = ⟨.refusal "Trading is halted", led, false⟩) ∧
    (∀ (led : Ledger) (locks : Locks) (ext : CloseExt) (symbol : String)
        (reason : Option String) (trade : TradeRecord) (order : OrderResp) (P2 : ℚ),
      get_config_value led "trading_halted" = some "1" →
      get_open_trade_by_symbol led symbol = some trade →
      ext.prices trade.symbol = some P2 →
      lock_lookup locks trade.symbol = none →
      execute_order (ext.stepOf trade.symbol) ext.venueSell "SELL" trade.quantity = .ok order →
      0 < order.executedQty →
      ∃ s, (sell symbol reason false led locks ext).result = .success s) := by
  constructor
  · intro led symbol a sl ts et dry ext h
    simp [buy, h]
  · intro led locks ext symbol reason trade order P2 hhalt hopen hprice hlook hE hq
    have hacq := acquire_lock_fresh locks trade.symbol ext.now ext.pid hlook
    have hqn : ¬ order.executedQty ≤ 0 := not_le.mpr hq
    simp only [sell, hopen, close_position, hprice, Bool.false_eq_true, if_false, hacq, hE,
      if_neg hqn]
    exact ⟨_, rfl⟩

/-- Witness for C2: with the halt flag set, the buy is refused while the sell
of the open BTCUSDT position still succeeds. -/
theorem claim_c2_witness :
    (buy led_halted "BTCUSDT" none none none none false (buy_ext_ok true) =
      ⟨.refusal "Trading is halted", led_halted, false⟩) ∧
    ∃ s, (sell "BTCUSDT" none false led_halted [] close_ext_ok).result = .success s := by
  constructor
  · exact claim_c2_halt_gates.1 led_halted "BTCUSDT" none none none none false
      (buy_ext_ok true) (by simp [get_config_value, assoc_lookup, led_halted])
  · exact claim_c2_halt_gates.2 led_halted [] close_ext_ok "BTCUSDT" none trade_btc
      order_sell_fill 110
      (by simp [get_config_value, assoc_lookup, led_halted])
      (by simp [get_open_trade_by_symbol, find_open_by_symbol, led_halted, trade_btc])
      (by norm_num [close_ext_ok, px_fun, trade_btc])
      rfl
      execute_sell_fine
      (by norm_num [order_sell_fill])

/-- A zero allocation override falls through to the configured allocation
(Python truthiness of `allocation or default`). -/
theorem buy_params_zero_alloc (led : Ledger) (sl ts : Option ℚ) :
    buy_params led (some 0) sl ts = buy_params led none sl ts := by
  simp [buy_params]

/-- C10: an explicit allocation override of 0.0 is silently discarded — the
whole buy behaves exactly as if no allocation override had been passed — while
explicit stop-loss-percent and trailing-stop-percent overrides of 0.0 are
honored by parameter resolution; so a caller cannot request a zero allocation
through the override parameter. -/
theorem claim_c10_zero_overrides :
    (∀ (led : Ledger) (symbol : String) (sl ts : Option ℚ) (et : Option String)
        (dry : Bool) (ext : BuyExt),
      buy led symbol (some 0) sl ts et dry ext = buy led symbol none sl ts et dry ext) ∧
    (∀ (led : Ledger) (allocation : Option ℚ) (bp : BuyParams),
      buy_params led allocation (some 0) (some 0) = some bp →
      bp.sl_pct = 0 ∧ bp.ts_pct = 0) := by
  constructor
  · intro led symbol sl ts et dry ext
    simp only [buy, buy_params_zero_alloc]
  · intro led allocation bp h
    simp only [buy_params, Option.pure_def, Option.bind_eq_bind, Option.some_bind] at h
    have key : ∀ (x : Option ℚ),
        (x.bind fun alloc =>
          (get_effective_config led "risk_per_trade").bind fun risk =>
          (get_effective_config led "min_trade_usdt").bind fun min_trade =>
          (get_effective_config led "cash_buffer").bind fun cash_buffer =>
          (get_effective_config led "max_portfolio_exposure").bind fun max_exposure =>
          (get_effective_config led "max_capital_at_risk").bind fun max_cap =>
          some ⟨alloc, 0, 0, risk, min_trade, cash_buffer, max_exposure, max_cap⟩) =
            some bp →
        bp.sl_pct = 0 ∧ bp.ts_pct = 0 := by
      intro x hx
      obtain ⟨alloc, _, hx⟩ := Option.bind_eq_some.mp hx
      obtain ⟨risk, _, hx⟩ := Option.bind_eq_some.mp hx
      obtain ⟨mt, _, hx⟩ := Option.bind_eq_some.mp hx
      obtain ⟨cb, _, hx⟩ := Option.bind_eq_some.mp hx
      obtain ⟨me, _, hx⟩ := Option.bind_eq_some.mp hx
      obtain ⟨mc, _, hx⟩ := Option.bind_eq_some.mp hx
      rw [← Option.some.inj hx]
      exact ⟨rfl, rfl⟩
    cases allocation with
    | none => exact key _ h
    | some a =>
      dsimp only at h
      by_cases ha0 : a = 0
      · rw [if_pos ha0] at h
        exact key _ h
      · rw [if_neg ha0] at h
        exact key (some a) h

/-- Witness for C10: the zero allocation override leaves the whole buy
unchanged, and zero stop overrides resolve to zero stop percents. -/
theorem claim_c10_witness :
    (buy led0 "BTCUSDT" (some 0) none none none true (buy_ext_ok true) =
      buy led0 "BTCUSDT" none none none none true (buy_ext_ok true)) ∧
    ((⟨15/100, 0, 0, 98/100, 10, 1/100, 95/100, 999999⟩ : BuyParams).sl_pct = 0 ∧
      (⟨15/100, 0, 0, 98/100, 10, 1/100, 95/100, 999999⟩ : BuyParams).ts_pct = 0) := by
  constructor
  · exact claim_c10_zero_overrides.1 led0 "BTCUSDT" none none none true (buy_ext_ok true)
  · exact claim_c10_zero_overrides.2 led0 none _
      (by simp [buy_params, get_effective_config, get_config_value, assoc_lookup, led0,
        static_default])

/-! The live-order phase of buy, for the recovery and error-conversion
claims. -/

/-- When every gate of engine.buy passes and dry_run is off, the call reduces
to the live-order tail at the computed quantity. -/
theorem buy_reaches_live (led : Ledger) (symbol : String)
    (a sl ts : Option ℚ) (et : Option String) (ext : BuyExt) (bp : BuyParams)
    (teq usdt crypto price : ℚ) (sc : StopCtx)
    (h1 : ¬ get_config_value led "trading_halted" = some "1")
    (h2 : get_open_trade_by_symbol led symbol = none)
    (h3 : buy_params led a sl ts = some bp)
    (h4 : calculate_equity led ext = .ok (teq, usdt, crypto))
    (h5 : ¬ teq ≤ 0)
    (h6 : ¬ max 0 (bp.max_exposure - crypto / teq) ≤ 0)
    (h7 : ¬ buy_sizing bp teq usdt (max 0 (bp.max_exposure - crypto / teq)) < bp.min_trade)
    (h8 : ext.prices symbol = some price)
    (h9 : stop_ctx led ext = some sc) :
    buy led symbol a sl ts et false ext =
      buy_live led symbol et ext bp sc
        (buy_sizing bp teq usdt (max 0 (bp.max_exposure - crypto / teq)) / price) := by
  simp only [buy, h1, h2, h3, h4, h5, h6, h7, h8, h9, Option.isSome_none,
    Bool.false_eq_true, if_false]

/-- With a filled order and a failing insert, the live tail reports success
with the full record and appends it to the recovery queue. -/
theorem buy_live_save_fails (led : Ledger) (symbol : String) (et : Option String)
    (ext : BuyExt) (bp : BuyParams) (sc : StopCtx) (quantity : ℚ)
    (order : OrderResp) (r : TradeRecord)
    (hE : execute_order (ext.stepOf symbol) ext.venueBuy "BUY" quantity = .ok order)
    (hq : ¬ order.executedQty ≤ 0)
    (hdb : ext.dbOk = false)
    (hr : r = mk_trade_record order symbol order.executedQty
      (order.cummulativeQuoteQty / order.executedQty) order.cummulativeQuoteQty
      (calculate_order_fee ext.prices order.fills)
      (stop_price sc bp.sl_pct (order.cummulativeQuoteQty / order.executedQty))
      (trailing_price bp.ts_pct (order.cummulativeQuoteQty / order.executedQty))
      bp.ts_pct et sc.atr ext.nowMs) :
    buy_live led symbol et ext bp sc quantity =
      ⟨.filled r, add_to_recovery_queue led (.trade r) "save_trade_failed_after_buy",
        true⟩ := by
  subst hr
  simp only [buy_live, hE, hq, hdb, Bool.false_eq_true, if_false]

/-- An insert of a fresh trade id succeeds and appends the saved row. -/
theorem save_trade_fresh (led : Ledger) (r : TradeRecord)
    (hfresh : ∀ t ∈ led.trades, t.trade_id ≠ r.trade_id) :
    save_trade led r = .ok { led with trades := led.trades ++ [saved_row r] } := by
  have hany : led.trades.any (fun u => u.trade_id == r.trade_id) = false := by
    rw [List.any_eq_false]
    intro u hu
    simp only [beq_iff_eq]
    exact hfresh u hu
  simp [save_trade, hany]

/-- C1: in a live buy where the market order fills but the trade insert
raises, buy still returns success with the full trade record, exactly one
unresolved recovery item tagged save_trade_failed_after_buy holding that
record is appended (the trades table is untouched), and replaying that item
through retry_recovery_item inserts the record and marks the item
resolved. -/
theorem claim_c1_recovery_after_failed_insert (led : Ledger) (symbol : String)
    (a sl ts : Option ℚ) (et : Option String) (ext : BuyExt) (bp : BuyParams)
    (teq usdt crypto price : ℚ) (sc : StopCtx) (order : OrderResp) (r : TradeRecord)
    (h1 : ¬ get_config_value led "trading_halted" = some "1")
    (h2 : get_open_trade_by_symbol led symbol = none)
    (h3 : buy_params led a sl ts = some bp)
    (h4 : calculate_equity led ext = .ok (teq, usdt, crypto))
    (h5 : ¬ teq ≤ 0)
    (h6 : ¬ max 0 (bp.max_exposure - crypto / teq) ≤ 0)
    (h7 : ¬ buy_sizing bp teq usdt (max 0 (bp.max_exposure - crypto / teq)) < bp.min_trade)
    (h8 : ext.prices symbol = some price)
    (h9 : stop_ctx led ext = some sc)
    (h10 : execute_order (ext.stepOf symbol) ext.venueBuy "BUY"
      (buy_sizing bp teq usdt (max 0 (bp.max_exposure - crypto / teq)) / price) = .ok order)
    (h11 : ¬ order.executedQty ≤ 0)
    (h12 : ext.dbOk = false)
    (hr : r = mk_trade_record order symbol order.executedQty
      (order.cummulativeQuoteQty / order.executedQty) order.cummulativeQuoteQty
      (calculate_order_fee ext.prices order.fills)
      (stop_price sc bp.sl_pct (order.cummulativeQuoteQty / order.executedQty))
      (trailing_price bp.ts_pct (order.cummulativeQuoteQty / order.executedQty))
      bp.ts_pct et sc.atr ext.nowMs)
    (h13 : ∀ t ∈ led.trades, t.trade_id ≠ r.trade_id)
    (h14 : ∀ it ∈ led.recovery, it.id ≠ led.nextRecoveryId) :
    buy led symbol a sl ts et false ext =
      ⟨.filled r, add_to_recovery_queue led (.trade r) "save_trade_failed_after_buy",
        true⟩ ∧
    (add_to_recovery_queue led (.trade r) "save_trade_failed_after_buy").trades =
      led.trades ∧
    (add_to_recovery_queue led (.trade r) "save_trade_failed_after_buy").recovery =
      led.recovery ++
        [⟨led.nextRecoveryId, .trade r, "save_trade_failed_after_buy", false⟩] ∧
    retry_recovery_item
        ⟨led.nextRecoveryId, .trade r, "save_trade_failed_after_buy", false⟩
        (add_to_recovery_queue led (.trade r) "save_trade_failed_after_buy") true =
      (⟨true, some "saved_trade", some r.trade_id, none⟩,
        ⟨led.trades ++ [saved_row r], led.config,
          led.recovery ++
            [⟨led.nextRecoveryId, .trade r, "save_trade_failed_after_buy", true⟩],
          led.nextRecoveryId + 1⟩) := by
  refine ⟨?_, rfl, rfl, ?_⟩
  · rw [buy_reaches_live led symbol a sl ts et ext bp teq usdt crypto price sc
      h1 h2 h3 h4 h5 h6 h7 h8 h9]
    exact buy_live_save_fails led symbol et ext bp sc _ order r h10 h11 h12 hr
  · have hsave : save_trade ⟨led.trades, led.config,
        led.recovery ++ [⟨led.nextRecoveryId, .trade r, "save_trade_failed_after_buy", false⟩],
        led.nextRecoveryId + 1⟩ r = .ok ⟨led.trades ++ [saved_row r], led.config,
        led.recovery ++ [⟨led.nextRecoveryId, .trade r, "save_trade_failed_after_buy", false⟩],
        led.nextRecoveryId + 1⟩ :=
      save_trade_fresh _ r h13
    have hmap : led.recovery.map (fun it =>
        if it.id = led.nextRecoveryId then { it with resolved := true } else it) =
        led.recovery := by
      have hcg : ∀ it ∈ led.recovery,
          (if it.id = led.nextRecoveryId then { it with resolved := true } else it) =
            id it := by
        intro it hit
        simp [h14 it hit]
      rw [List.map_congr_left hcg, List.map_id]
    simp only [retry_recovery_item, add_to_recovery_queue, resolve_recovery_item,
      hsave, List.map_append, hmap]
    simp
    exact hmap

/-- Witness for C1 at a concrete run: empty store, defaults, price 100, a fill
of 1 unit for 100 USDT, insert failing. -/
theorem claim_c1_witness :
    buy led0 "BTCUSDT" none none none none false (buy_ext_ok false) =
      ⟨.filled c1_record,
        add_to_recovery_queue led0 (.trade c1_record) "save_trade_failed_after_buy",
        true⟩ ∧
    (add_to_recovery_queue led0 (.trade c1_record) "save_trade_failed_after_buy").trades =
      led0.trades ∧
    (add_to_recovery_queue led0 (.trade c1_record) "save_trade_failed_after_buy").recovery =
      led0.recovery ++
        [⟨led0.nextRecoveryId, .trade c1_record, "save_trade_failed_after_buy", false⟩] ∧
    retry_recovery_item
        ⟨led0.nextRecoveryId, .trade c1_record, "save_trade_failed_after_buy", false⟩
        (add_to_recovery_queue led0 (.trade c1_record) "save_trade_failed_after_buy") true =
      (⟨true, some "saved_trade", some c1_record.trade_id, none⟩,
        ⟨led0.trades ++ [saved_row c1_record], led0.config,
          led0.recovery ++
            [⟨led0.nextRecoveryId, .trade c1_record, "save_trade_failed_after_buy", true⟩],
          led0.nextRecoveryId + 1⟩) := by
  have hq147 : buy_sizing bp_default 1000 1000
      (max 0 (bp_default.max_exposure - 0 / 1000)) / 100 = 147/100 := by
    norm_num [buy_sizing, bp_default, min_def]
  have hstep : step_size ((1:ℚ)/1000) (147/100) = 147/100 := by
    refine (step_size_pow10 3 (1/1000) (147/100) (by norm_num) (by norm_num)).trans ?_
    rw [show ⌊(147/100 : ℚ) * 10 ^ 3⌋ = 1470 by rw [Int.floor_eq_iff]; norm_num]
    norm_num
  refine claim_c1_recovery_after_failed_insert led0 "BTCUSDT" none none none none
    (buy_ext_ok false) bp_default 1000 1000 0 100 ⟨"FIXED", none, 0⟩ order_buy_fill
    c1_record
    (by simp [get_config_value, assoc_lookup, led0])
    rfl
    (by simp [buy_params, get_effective_config, get_config_value, assoc_lookup, led0,
      static_default, bp_default])
    (by norm_num [calculate_equity, buy_ext_ok, get_open_trades, led0])
    (by norm_num)
    (by norm_num [bp_default])
    (by norm_num [buy_sizing, bp_default, min_def])
    (by simp [buy_ext_ok, px_fun])
    (by
      have hup : str_to_upper "FIXED" = "FIXED" := rfl
      simp [stop_ctx, get_config_value, assoc_lookup, led0, hup])
    ?_ (by norm_num [order_buy_fill]) rfl rfl (by simp [led0]) (by simp [led0])
  rw [show (buy_ext_ok false).stepOf "BTCUSDT" = (1:ℚ)/1000 from rfl, hq147]
  have hpos : ¬ step_size ((1:ℚ)/1000) (147/100) ≤ 0 := by
    rw [hstep]
    norm_num
  simp only [execute_order]
  rw [if_neg hpos]
  simp [buy_ext_ok]

/-- The quantization of anything below one step of a size-10 lot floors to
zero. -/
theorem step_size_ten_small (q : ℚ) (h0 : 0 ≤ q) (h10 : q < 10) :
    step_size 10 q = 0 := by
  have hprec : implied_precision 10 = 0 := by
    have h1 : (10 : ℚ).num = 10 := by norm_num
    have h2 : (10 : ℚ).den = 1 := by norm_num
    simp [implied_precision, h1, h2]
  have hfloor : ⌊q / 10⌋ = 0 := by
    rw [Int.floor_eq_iff]
    constructor
    · positivity
    · norm_num
      linarith
  have hns : ¬ (10 : ℚ) ≤ 0 := by norm_num
  rw [step_size, if_neg hns, hprec, hfloor]
  norm_num [round_to, py_round]

/-- C6 counterexample: a venue step of 10 floors the computed quantity 1.47 to
zero, execute_order raises the hard error — but buy catches it and returns a
structured refusal to its caller, with the store untouched and no order
placed; the raise does not propagate out of buy. -/
theorem claim_c6_counterexample :
    buy led0 "BTCUSDT" none none none none false buy_ext_coarse_step =
      ⟨.refusal ("Order failed: " ++ order_error_msg (.qtyTooSmall (147/100) 0)),
        led0, false⟩ ∧
    execute_order 10 (.ok order_buy_fill) "BUY" (147/100) =
      .error (.qtyTooSmall (147/100) 0) := by
  have hstep : step_size 10 (147/100 : ℚ) = 0 :=
    step_size_ten_small (147/100) (by norm_num) (by norm_num)
  have hE : execute_order 10 (.ok order_buy_fill) "BUY" (147/100) =
      .error (.qtyTooSmall (147/100) 0) := by
    simp only [execute_order, hstep]
    norm_num
  refine ⟨?_, hE⟩
  have hred := buy_reaches_live led0 "BTCUSDT" none none none none buy_ext_coarse_step
    bp_default 1000 1000 0 100 ⟨"FIXED", none, 0⟩
    (by simp [get_config_value, assoc_lookup, led0])
    rfl
    (by simp [buy_params, get_effective_config, get_config_value, assoc_lookup, led0,
      static_default, bp_default])
    (by norm_num [calculate_equity, buy_ext_coarse_step, get_open_trades, led0])
    (by norm_num)
    (by norm_num [bp_default])
    (by norm_num [buy_sizing, bp_default, min_def])
    (by simp [buy_ext_coarse_step, px_fun])
    (by
      have hup : str_to_upper "FIXED" = "FIXED" := rfl
      simp [stop_ctx, get_config_value, assoc_lookup, led0, hup])
  rw [hred]
  have hq147 : buy_sizing bp_default 1000 1000
      (max 0 (bp_default.max_exposure - 0 / 1000)) / 100 = 147/100 := by
    norm_num [buy_sizing, bp_default, min_def]
  rw [hq147]
  have hE2 : execute_order (buy_ext_coarse_step.stepOf "BTCUSDT")
      buy_ext_coarse_step.venueBuy "BUY" (147/100) =
      .error (.qtyTooSmall (147/100) 0) := hE
  simp [buy_live, hE2, places_order]

/-- C6 (amended): a floored quantity ≤ 0 makes execute_order raise the hard
qtyTooSmall error before any venue call — but engine.buy and
engine.close_position catch every order exception and convert it into a
structured refusal ("Order failed: ..." / "Sell order failed: ..."), so the
raise does not propagate to their callers. -/
theorem claim_c6_amended :
    (∀ (step : ℚ) (venue : Except String OrderResp) (side : String) (q : ℚ),
      step_size step q ≤ 0 →
      execute_order step venue side q = .error (.qtyTooSmall q (step_size step q))) ∧
    (∀ (led : Ledger) (symbol : String) (a sl ts : Option ℚ) (et : Option String)
        (ext : BuyExt) (bp : BuyParams) (teq usdt crypto price : ℚ) (sc : StopCtx)
        (e : OrderError),
      ¬ get_config_value led "trading_halted" = some "1" →
      get_open_trade_by_symbol led symbol = none →
      buy_params led a sl ts = some bp →
      calculate_equity led ext = .ok (teq, usdt, crypto) →
      ¬ teq ≤ 0 →
      ¬ max 0 (bp.max_exposure - crypto / teq) ≤ 0 →
      ¬ buy_sizing bp teq usdt (max 0 (bp.max_exposure - crypto / teq)) < bp.min_trade →
      ext.prices symbol = some price →
      stop_ctx led ext = some sc →
      execute_order (ext.stepOf symbol) ext.venueBuy "BUY"
        (buy_sizing bp teq usdt (max 0 (bp.max_exposure - crypto / teq)) / price) =
        .error e →
      buy led symbol a sl ts et false ext =
        ⟨.refusal ("Order failed: " ++ order_error_msg e), led,
          places_order (.error e)⟩) ∧
    (∀ (trade : TradeRecord) (reason : Option String) (led : Ledger) (locks : Locks)
        (ext : CloseExt) (P2 : ℚ) (e : OrderError),
      ext.prices trade.symbol = some P2 →
      lock_lookup locks trade.symbol = none →
      execute_order (ext.stepOf trade.symbol) ext.venueSell "SELL" trade.quantity =
        .error e →
      close_position trade reason false led locks ext =
        ⟨.refusal ("Sell order failed: " ++ order_error_msg e), led,
          erase_key locks trade.symbol, places_order (.error e)⟩) := by
  refine ⟨?_, ?_, ?_⟩
  · intro step venue side q h
    simp [execute_order, h]
  · intro led symbol a sl ts et ext bp teq usdt crypto price sc e
      h1 h2 h3 h4 h5 h6 h7 h8 h9 hE
    rw [buy_reaches_live led symbol a sl ts et ext bp teq usdt crypto price sc
      h1 h2 h3 h4 h5 h6 h7 h8 h9]
    simp [buy_live, hE]
  · intro trade reason led locks ext P2 e hprice hlook hE
    have hacq := acquire_lock_fresh locks trade.symbol ext.now ext.pid hlook
    have hrel : release_lock ((trade.symbol, LockContent.valid ext.pid ext.now) ::
        erase_key locks trade.symbol) trade.symbol = erase_key locks trade.symbol := by
      rw [release_lock, erase_key_cons_self, erase_key_idem]
    simp only [close_position, hprice, Bool.false_eq_true, if_false, hacq, hE, hrel]

/-- Witness for C6 (amended): the raise at execute_order for a coarse step,
and its conversion into the structured sell refusal by close_position. -/
theorem claim_c6_witness :
    execute_order 10 (.ok order_sell_fill) "SELL" 1 =
      .error (.qtyTooSmall 1 (step_size 10 1)) ∧
    close_position trade_btc none false led_trailing [] close_ext_coarse_step =
      ⟨.refusal ("Sell order failed: " ++
          order_error_msg (.qtyTooSmall 1 (step_size 10 1))),
        led_trailing, erase_key [] trade_btc.symbol,
        places_order (.error (.qtyTooSmall 1 (step_size 10 1)))⟩ := by
  have hstep : step_size 10 (1 : ℚ) = 0 :=
    step_size_ten_small 1 (by norm_num) (by norm_num)
  have hle : step_size 10 (1 : ℚ) ≤ 0 := by
    rw [hstep]
  constructor
  · exact claim_c6_amended.1 10 (.ok order_sell_fill) "SELL" 1 hle
  · refine claim_c6_amended.2.2 trade_btc none led_trailing [] close_ext_coarse_step
      110 (.qtyTooSmall 1 (step_size 10 1))
      (by norm_num [close_ext_coarse_step, px_fun, trade_btc]) rfl ?_
    exact claim_c6_amended.1 10 (.ok order_sell_fill) "SELL" 1 hle

end Oakley
